import Mathlib

/-!
Verification of the Parades-Oh-Guardian frontend's algorithmic core.

Shallow embedding of the pure data-transformation functions of the repository:
the suitability / safety scoring functions, the result-normalization layer,
the weather-window aggregation, the wind-speed unit conversion, and the
incremental candidate scanner of `AlternativeDateFinder`
(`src/frontend/src/components/EnhancedLocationInput.jsx`, plus the two
unnamed page variants `src/unnamed/part_001` and `src/unnamed/part_002`).

JavaScript numbers are modelled as rationals (ℚ); a possibly-missing numeric
field is `Option ℚ`, with JavaScript truthiness (`undefined`, `null` and `0`
are falsy) modelled explicitly where the source relies on it.
-/

set_option maxHeartbeats 1000000
set_option maxRecDepth 200000

namespace ParadesOhGuardian

/-- JavaScript truthiness of a possibly-missing numeric value: `undefined`
and `0` are falsy, every other number is truthy. -/
def optTruthy : Option ℚ → Bool
  | none => false
  | some q => q != 0

/-- JavaScript `v || d` for a possibly-missing numeric value `v`:
the default `d` is used when `v` is missing or falsy (zero). -/
def jsOrQ (v : Option ℚ) (d : ℚ) : ℚ :=
  match v with
  | none => d
  | some q => if q = 0 then d else q

/-! ### Weather observations and activity requirements

`Weather` is the simplified per-day record produced by `mappedDaily` in
`EnhancedLocationInput.jsx` (lines 1054-1081): date string plus numeric
metrics. `Requirements` mirrors the `activityRequirements` entries
`{ temperature: {min, max}, precipitation: {max}, wind: {max}, humidity: {min?, max} }`;
the optional `humidity.min` models activities whose table omits that key. -/

structure Weather where
  date : String
  temperature : ℚ
  precipitation : ℚ
  windSpeed : ℚ
  humidity : ℚ
  cloudCover : ℚ
  uvIndex : ℚ
deriving DecidableEq, Repr

structure TempReq where
  min : ℚ
  max : ℚ
deriving DecidableEq, Repr

structure MaxReq where
  max : ℚ
deriving DecidableEq, Repr

structure HumidityReq where
  min : Option ℚ
  max : ℚ
deriving DecidableEq, Repr

structure Requirements where
  temperature : TempReq
  precipitation : MaxReq
  wind : MaxReq
  humidity : HumidityReq
deriving DecidableEq, Repr

/-- The six penalty dimensions of `calculateSafetyScore`; each recorded
factor string (`"Too cold (N points)"`, ...) is abstracted to its dimension
tag plus the numeric penalty it reports. -/
inductive FactorKind where
  | tooCold
  | tooHot
  | rainRisk
  | tooWindy
  | tooDry
  | tooHumid
deriving DecidableEq, Repr

structure Factor where
  kind : FactorKind
  penalty : ℚ
deriving DecidableEq, Repr

/-- Helper for one `if (violated) { score -= penalty; factors.push(...) }`
check of `calculateSafetyScore`: the singleton factor list contributed when
the condition fires. -/
def optFactor (c : Prop) [Decidable c] (kind : FactorKind) (penalty : ℚ) : List Factor :=
  if c then [⟨kind, penalty⟩] else []

structure SafetyResult where
  score : ℚ
  factors : List Factor
deriving DecidableEq, Repr

/-- Embedding of `calculateSafetyScore` (`EnhancedLocationInput.jsx` lines
1002-1048, and the character-identical copy at lines 552-598): start from
100, subtract a weighted penalty and record a factor for every strictly
violated dimension, clamp to [0,100].  The sequential
`score -= penalty; factors.push(...)` statements of the source are gathered
as a factor list and the subtraction of the sum of its penalties, which
computes the same score.  The `requirements.humidity.min && ...` guard uses
JavaScript truthiness of the optional minimum. -/
def calculateSafetyScore (weather : Weather) (requirements : Requirements) : SafetyResult :=
  let factors : List Factor :=
    optFactor (weather.temperature < requirements.temperature.min) .tooCold
      ((requirements.temperature.min - weather.temperature) * 3)
    ++ optFactor (requirements.temperature.max < weather.temperature) .tooHot
      ((weather.temperature - requirements.temperature.max) * 2)
    ++ optFactor (requirements.precipitation.max < weather.precipitation) .rainRisk
      ((weather.precipitation - requirements.precipitation.max) * 5)
    ++ optFactor (requirements.wind.max < weather.windSpeed) .tooWindy
      ((weather.windSpeed - requirements.wind.max) * 2)
    ++ optFactor (optTruthy requirements.humidity.min = true ∧
        weather.humidity < (requirements.humidity.min).getD 0) .tooDry
      (((requirements.humidity.min).getD 0 - weather.humidity) * 1)
    ++ optFactor (requirements.humidity.max < weather.humidity) .tooHumid
      ((weather.humidity - requirements.humidity.max) * (3 / 2))
  { score := max 0 (min 100 (100 - (factors.map Factor.penalty).sum)), factors := factors }

/-- Per-activity thresholds of the two unnamed page variants:
`{ maxTemp, minTemp, maxWind, maxRain }`. -/
structure ActivityThresholds where
  maxTemp : ℚ
  minTemp : ℚ
  maxWind : ℚ
  maxRain : ℚ
deriving DecidableEq, Repr

namespace Part1

/-- Embedding of `calculateSuitabilityScore` from `src/unnamed/part_001`
(lines 190-207): the activity lookup is modelled by an optional thresholds
argument (`none` when `activities.find(...)` misses, returning 50);
penalties are weighted 5 / 3 / 2 / 1.5 and the result is clamped to
[0,100]. -/
def calculateSuitabilityScore (thresholds : Option ActivityThresholds)
    (temp precip wind : ℚ) : ℚ :=
  match thresholds with
  | none => 50
  | some t =>
    let hotPen := if t.maxTemp < temp then (temp - t.maxTemp) * 5 else 0
    let coldPen := if temp < t.minTemp then (t.minTemp - temp) * 3 else 0
    let rainPen := if t.maxRain < precip then (precip - t.maxRain) * 2 else 0
    let windPen := if t.maxWind < wind then (wind - t.maxWind) * (3 / 2) else 0
    max 0 (min 100 (100 - hotPen - coldPen - rainPen - windPen))

end Part1

namespace Part2

/-- Embedding of the `calculateSuitabilityScore` variant from
`src/unnamed/part_002` (lines 296-313): weights 3 / 2 / 2 / 1.5, default 75
when the activity lookup misses, and the clamp is `max 50 (min 100 ...)`,
so the result lies in [50,100]. -/
def calculateSuitabilityScore (thresholds : Option ActivityThresholds)
    (temp precip wind : ℚ) : ℚ :=
  match thresholds with
  | none => 75
  | some t =>
    let hotPen := if t.maxTemp < temp then (temp - t.maxTemp) * 3 else 0
    let coldPen := if temp < t.minTemp then (t.minTemp - temp) * 2 else 0
    let rainPen := if t.maxRain < precip then (precip - t.maxRain) * 2 else 0
    let windPen := if t.maxWind < wind then (wind - t.maxWind) * (3 / 2) else 0
    max 50 (min 100 (100 - hotPen - coldPen - rainPen - windPen))

end Part2

/-! ### Incremental candidate scanner (`AlternativeDateFinder`, second variant,
`EnhancedLocationInput.jsx` lines 940-1237)

The scanner scores a candidate pool across animation frames, keeps only the
best `topK = 40` entries by evicting the current worst on overflow, flushes
sorted partial results to the UI, and merges backend-supplied alternative
dates on completion.  Real-time quantities (chunk duration, frame
timestamps) are inputs of each step. -/

inductive Recommendation where
  | excellent
  | good
  | fair
  | poor
deriving DecidableEq, Repr

/-- Risk classification from the score, thresholds 80 / 60 / 40
(`s.score >= 80 ? 'excellent' : ...`). -/
def recommendationFor (score : ℚ) : Recommendation :=
  if 80 ≤ score then .excellent
  else if 60 ≤ score then .good
  else if 40 ≤ score then .fair
  else .poor

/-- One element of the scanner's `scored` array: a candidate day together
with its safety score, factors and recommendation.  The date is kept as the
record's date string (the source stores a `Date` object built from it; the
human-readable `dayOfWeek` presentation string is not modelled). -/
structure ScoredEntry where
  date : String
  weather : Weather
  safetyScore : ℚ
  safetyFactors : List Factor
  recommendation : Recommendation
deriving DecidableEq, Repr

/-- Entry construction inside `processChunk` (and inside
`mergeBackendAlternatives`). -/
def mkEntry (requirements : Requirements) (w : Weather) : ScoredEntry :=
  let s := calculateSafetyScore w requirements
  { date := w.date, weather := w, safetyScore := s.score,
    safetyFactors := s.factors, recommendation := recommendationFor s.score }

/-- The linear argmin scan of `processChunk`:
`let worstIdx = 0; for (i=1..) if (scored[i].safetyScore < scored[worstIdx].safetyScore) worstIdx = i;`.
`bestScore` carries `scored[worstIdx].safetyScore`, `i` the absolute index of
the head of the remaining list, `best` the current argmin index. -/
def worstIdxGo : List ScoredEntry → ℚ → Nat → Nat → Nat
  | [], _, _, best => best
  | e :: rest, bestScore, i, best =>
    if e.safetyScore < bestScore then worstIdxGo rest e.safetyScore (i + 1) i
    else worstIdxGo rest bestScore (i + 1) best

def worstIdx : List ScoredEntry → Nat
  | [] => 0
  | e :: rest => worstIdxGo rest e.safetyScore 1 0

/-- Retention bound of the scanner (`const topK = 40`). -/
def topK : Nat := 40

/-- One iteration of the scoring loop body: push the new entry, and if the
retained array now exceeds `topK` entries, splice out the entry found by the
linear argmin scan. -/
def pushEntry (scored : List ScoredEntry) (entry : ScoredEntry) : List ScoredEntry :=
  let scored1 := scored ++ [entry]
  if topK < scored1.length then scored1.eraseIdx (worstIdx scored1) else scored1

/-- Descending-by-`safetyScore` comparator used by every
`sort((a,b) => b.safetyScore - a.safetyScore)` in the scanner. -/
def entryDesc (a b : ScoredEntry) : Prop := b.safetyScore ≤ a.safetyScore

instance : DecidableRel entryDesc := fun a b => inferInstanceAs (Decidable (_ ≤ _))

instance : IsTotal ScoredEntry entryDesc := ⟨fun a b => le_total b.safetyScore a.safetyScore⟩

instance : IsTrans ScoredEntry entryDesc := ⟨fun _ _ _ h1 h2 => le_trans h2 h1⟩

def sortEntriesDesc (l : List ScoredEntry) : List ScoredEntry := l.insertionSort entryDesc

/-- Descending comparator on bare scores, for stating the top-K
specification. -/
def scoreDesc (a b : ℚ) : Prop := b ≤ a

instance : DecidableRel scoreDesc := fun a b => inferInstanceAs (Decidable (_ ≤ _))

instance : IsTotal ℚ scoreDesc := ⟨fun a b => le_total b a⟩

instance : IsTrans ℚ scoreDesc := ⟨fun _ _ _ h1 h2 => le_trans h2 h1⟩

instance : IsAntisymm ℚ scoreDesc := ⟨fun _ _ h1 h2 => le_antisymm h2 h1⟩

/-- Specification step for top-K retention, used to state the refinement
claim: insert the new score into a descending-sorted best list and keep the
first `topK`. -/
def specStep (acc : List ℚ) (x : ℚ) : List ℚ :=
  (List.orderedInsert scoreDesc x acc).take topK

/-- The whole retention loop of `processChunk` run over a candidate pool:
score every candidate in order and fold it through push-and-evict. -/
def retainAll (requirements : Requirements) (candidates : List Weather) : List ScoredEntry :=
  (candidates.map (mkEntry requirements)).foldl pushEntry []

/-- One backend-supplied alternative date record, as consumed by
`mergeBackendAlternatives`: a date string plus the weather metrics the
backend attaches (`humidity`, `cloudCover` and `uvIndex` are defaulted with
`|| 60` / `|| 0` in the source, so they are modelled as optional). -/
structure BackendAlt where
  date : String
  temperature : ℚ
  precipitation : ℚ
  windSpeed : ℚ
  humidity : Option ℚ
  cloudCover : Option ℚ
  uvIndex : Option ℚ
deriving DecidableEq, Repr

/-- Weather chosen for a backend alternative inside
`mergeBackendAlternatives`: the already-mapped daily record with the same
date when one exists (`mappedDaily.find(x => x.date === dateStr)`), else a
record built from the alternative's own fields. -/
def altWeather (mappedDaily : List Weather) (d : BackendAlt) : Weather :=
  match mappedDaily.find? (fun x => x.date = d.date) with
  | some w => w
  | none =>
    { date := d.date, temperature := d.temperature, precipitation := d.precipitation,
      windSpeed := d.windSpeed, humidity := jsOrQ d.humidity 60,
      cloudCover := jsOrQ d.cloudCover 0, uvIndex := jsOrQ d.uvIndex 0 }

/-- Embedding of `mergeBackendAlternatives` (`EnhancedLocationInput.jsx`
lines 1176-1207): score backend-supplied alternative dates, drop the ones
whose date is already present in the generated result, append and re-sort
descending.  Note that the combined list is not re-capped to `topK`. -/
def mergeBackendAlternatives (mappedDaily : List Weather) (requirements : Requirements)
    (backendAlt : List BackendAlt) (generated : List ScoredEntry) : List ScoredEntry :=
  if backendAlt.isEmpty then generated else
  let existingDates := generated.map ScoredEntry.date
  let mapped := (backendAlt.map fun d => mkEntry requirements (altWeather mappedDaily d)).filter
    fun a => !(existingDates.contains a.date)
  sortEntriesDesc (generated ++ mapped)

/-- State of one `AlternativeDateFinder` run: the local variables of
`incrementalScore` (`index`, `dynamicChunk`, `scored`, `lastFrameTs`),
the published React state (`alternativeDates`, `progress`, `loading`,
`timedOut`), the abort flag `computeAbortRef.current`, whether a frame
callback is scheduled, and whether the 2.5s timeout is still pending. -/
structure ScanState where
  index : Nat
  dynamicChunk : Nat
  lastFrameTs : ℚ
  scored : List ScoredEntry
  alternativeDates : List ScoredEntry
  progressProcessed : Nat
  progressTotal : Nat
  framePending : Bool
  loading : Bool
  timedOut : Bool
  aborted : Bool
  timeoutActive : Bool
deriving DecidableEq, Repr

/-- State after the `useEffect` body runs: abort flag cleared, loading set,
timeout armed, progress reset, starting chunk size 10, and the first
animation frame requested. -/
def initState (candidates : List Weather) (t0 : ℚ) : ScanState :=
  { index := 0, dynamicChunk := 10, lastFrameTs := t0, scored := [],
    alternativeDates := [], progressProcessed := 0,
    progressTotal := candidates.length, framePending := true,
    loading := true, timedOut := false, aborted := false, timeoutActive := true }

/-- Embedding of one `processChunk` animation-frame callback
(`EnhancedLocationInput.jsx` lines 1126-1173) together with the completion
callback of the `useEffect` (lines 1221-1230).  `chunkDuration` and `nowTs`
are the real-time measurements of this frame.  The callback first consumes
its scheduled frame; an aborted run then does nothing further.  Otherwise it
scores the next `dynamicChunk` candidates through push-and-evict, adapts the
chunk size (grow by 4 under 6ms while below 60, shrink to `floor(0.7x)` but
at least 6 when over 18ms), updates progress, flushes a sorted partial
result (the flush guard `nowTs - lastFrameTs > 40 || index === end` always
passes because the loop leaves `index = end`), and either schedules the next
frame or finishes: final sort, final flush, then the completion callback
merges backend alternatives (unless aborted), clears the timeout and stops
loading. -/
def runFrame (candidates : List Weather) (requirements : Requirements)
    (mappedDaily : List Weather) (backendAlt : List BackendAlt)
    (chunkDuration nowTs : ℚ) (s : ScanState) : ScanState :=
  if s.framePending = false then s else
  let s0 := { s with framePending := false }
  if s0.aborted = true then s0 else
  let e := min (s0.index + s0.dynamicChunk) candidates.length
  let chunkEntries := ((candidates.drop s0.index).take (e - s0.index)).map (mkEntry requirements)
  let scored := chunkEntries.foldl pushEntry s0.scored
  let dc : Nat :=
    if chunkDuration < 6 ∧ s0.dynamicChunk < 60 then s0.dynamicChunk + 4
    else if 18 < chunkDuration ∧ 6 < s0.dynamicChunk then max 6 (s0.dynamicChunk * 7 / 10)
    else s0.dynamicChunk
  let s1 := { s0 with index := e, dynamicChunk := dc, scored := scored,
                      progressProcessed := e, progressTotal := candidates.length }
  let s2 :=
    if 40 < nowTs - s1.lastFrameTs ∨ e = e then
      { s1 with alternativeDates := sortEntriesDesc scored, lastFrameTs := nowTs }
    else s1
  if e < candidates.length ∧ s2.aborted = false then
    { s2 with framePending := true }
  else
    let sortedFinal := sortEntriesDesc scored
    let s3 := { s2 with scored := sortedFinal, alternativeDates := sortedFinal }
    let s4 :=
      if s3.aborted = false then
        { s3 with alternativeDates :=
            mergeBackendAlternatives mappedDaily requirements backendAlt sortedFinal }
      else s3
    { s4 with timeoutActive := false, loading := false }

/-- External events of one scanner run: an animation frame firing (with its
measured timings), the 2.5s timeout firing, and the effect cleanup running
on unmount or re-trigger. -/
inductive ScanEvent where
  | frame (chunkDuration nowTs : ℚ)
  | timeout
  | unmount
deriving DecidableEq, Repr

def scanStep (candidates : List Weather) (requirements : Requirements)
    (mappedDaily : List Weather) (backendAlt : List BackendAlt)
    (s : ScanState) : ScanEvent → ScanState
  | .frame d t => runFrame candidates requirements mappedDaily backendAlt d t s
  | .timeout =>
    if s.timeoutActive = true then
      { s with timedOut := true, aborted := true, timeoutActive := false }
    else s
  | .unmount => { s with aborted := true, timeoutActive := false }

/-- A whole scanner run: the initial effect body followed by an arbitrary
sequence of frame / timeout / unmount events. -/
def runScan (candidates : List Weather) (requirements : Requirements)
    (mappedDaily : List Weather) (backendAlt : List BackendAlt)
    (t0 : ℚ) (events : List ScanEvent) : ScanState :=
  events.foldl (scanStep candidates requirements mappedDaily backendAlt)
    (initState candidates t0)

/-! ### JavaScript value model for the normalization layer

`normalizeResults` in `src/unnamed/part_001` accepts an arbitrary JavaScript
value.  `JSVal` models the value universe the function can observe (floats
as ℚ, no NaN); property access on `null`/`undefined` is the only way this
code can throw, so `getProp` returns `none` exactly there. -/

inductive JSVal where
  | undefined
  | null
  | bool (b : Bool)
  | num (q : ℚ)
  | str (s : String)
  | arr (elems : List JSVal)
  | obj (fields : List (String × JSVal))

/-- JavaScript truthiness: `undefined`, `null`, `false`, `0` and the empty
string are falsy; arrays and objects are always truthy. -/
def JSVal.truthy : JSVal → Bool
  | .undefined => false
  | .null => false
  | .bool b => b
  | .num q => q != 0
  | .str s => s != ""
  | .arr _ => true
  | .obj _ => true

/-- JavaScript `a || b`. -/
def jsOr (a b : JSVal) : JSVal := if a.truthy then a else b

/-- Whether `typeof v === 'object'` (true for `null`, arrays and objects). -/
def JSVal.typeofObject : JSVal → Bool
  | .null => true
  | .arr _ => true
  | .obj _ => true
  | _ => false

def JSVal.isArray : JSVal → Bool
  | .arr _ => true
  | _ => false

def JSVal.isNum : JSVal → Bool
  | .num _ => true
  | _ => false

def JSVal.isStr : JSVal → Bool
  | .str _ => true
  | _ => false

/-- Property access `v[k]`.  `none` models the TypeError thrown on
`null`/`undefined`; a missing key or a named key of a primitive or array
yields `undefined`. -/
def JSVal.getProp : JSVal → String → Option JSVal
  | .undefined, _ => none
  | .null, _ => none
  | .obj fields, k => some (((fields.find? fun p => p.1 == k).map Prod.snd).getD .undefined)
  | _, _ => some .undefined

/-- Total property access (used only where a throw is impossible, to state
properties of the normalization output). -/
def getPropD (v : JSVal) (k : String) : JSVal := (v.getProp k).getD .undefined

/-- The `error` key carried through the `{...EMPTY_RESULTS, ...data}`
spread: present only when the input object has one. -/
def JSVal.errorField : JSVal → Option JSVal
  | .obj fields => (fields.find? fun p => p.1 == "error").map Prod.snd
  | _ => none

structure WeatherWindowOut where
  totalDays : JSVal
  suitableDays : JSVal
  riskLevel : JSVal

/-- The fields of the normalized result shape that the specification's
contract constrains (the remaining `EMPTY_RESULTS` fields —
`thresholdAnalysis`, `nasaDataSources`, `location`, `dateRange` — are
carried through the spread unchanged and are not modelled). -/
structure NormalizedResults where
  bestDays : JSVal
  weatherWindow : WeatherWindowOut
  error : Option JSVal

/-- The modelled fields of `EMPTY_RESULTS` (`src/unnamed/part_001` lines
62-69). -/
def EMPTY_RESULTS : NormalizedResults :=
  { bestDays := .arr [], weatherWindow := ⟨.num 0, .num 0, .str "unknown"⟩, error := none }

/-- The `weatherWindow` source object chosen by `normalizeResults`:
`data.weatherWindow || data.weather_window_summary || data.weather_window || {}`. -/
def windowSource (data : JSVal) : JSVal :=
  jsOr (jsOr (jsOr (getPropD data "weatherWindow") (getPropD data "weather_window_summary"))
    (getPropD data "weather_window")) (.obj [])

/-- Embedding of `normalizeResults` (`src/unnamed/part_001` lines 116-131).
`none` would model a thrown exception; every property access is performed
through the `Option` monad so that the no-throw claim is a real theorem.
The source short-circuits `||` chains, but in the non-guard branch every
access is on a truthy object-typed value, so evaluating all of them (as the
monadic form does) is equivalent. -/
def normalizeResults (data : JSVal) : Option NormalizedResults :=
  if !data.truthy || !data.typeofObject then
    some { EMPTY_RESULTS with error := some (.str "Invalid data structure") }
  else do
    let bd1 ← data.getProp "bestDays"
    let bd2 ← data.getProp "best_days"
    let bestDays := jsOr (jsOr bd1 bd2) (.arr [])
    let ww1 ← data.getProp "weatherWindow"
    let ww2 ← data.getProp "weather_window_summary"
    let ww3 ← data.getProp "weather_window"
    let weatherWindow := jsOr (jsOr (jsOr ww1 ww2) ww3) (.obj [])
    let td1 ← weatherWindow.getProp "totalDays"
    let td2 ← weatherWindow.getProp "total_days"
    let sd1 ← weatherWindow.getProp "suitableDays"
    let sd2 ← weatherWindow.getProp "suitable_days"
    let rl1 ← weatherWindow.getProp "riskLevel"
    let rl2 ← weatherWindow.getProp "risk_level"
    some
      { bestDays := if bestDays.isArray then bestDays else .arr [],
        weatherWindow :=
          { totalDays := jsOr (jsOr td1 td2) (.num 0),
            suitableDays := jsOr (jsOr sd1 sd2) (.num 0),
            riskLevel := jsOr (jsOr rl1 rl2) (.str "unknown") },
        error := data.errorField }

/-- Total view of `normalizeResults` (it never throws, see the claim-4
theorem). -/
def normRD (data : JSVal) : NormalizedResults := (normalizeResults data).getD EMPTY_RESULTS

/-- What `normalizeResults` computes on a truthy object-typed input,
expressed with total property access (provably equal to the monadic
embedding in that case — no access can throw there). -/
def normalizeObjectView (data : JSVal) : NormalizedResults :=
  let bestDays := jsOr (jsOr (getPropD data "bestDays") (getPropD data "best_days")) (.arr [])
  let ww := windowSource data
  { bestDays := if bestDays.isArray then bestDays else .arr [],
    weatherWindow :=
      { totalDays := jsOr (jsOr (getPropD ww "totalDays") (getPropD ww "total_days")) (.num 0),
        suitableDays :=
          jsOr (jsOr (getPropD ww "suitableDays") (getPropD ww "suitable_days")) (.num 0),
        riskLevel := jsOr (jsOr (getPropD ww "riskLevel") (getPropD ww "risk_level"))
          (.str "unknown") },
    error := data.errorField }

/-! ### Analysis entry points (`handleAnalyze` of the two page variants)

The network is an external collaborator: the backend's reply (or its
absence, covering rejected fetches and non-ok statuses) is a parameter, as
is the date parser (`new Date(...)` timestamps as ℚ).  Missing inputs are
the empty string, as in the React state initialisation. -/

inductive ResultsUpdate (α : Type) where
  | unchanged
  | set (r : α)

structure AnalyzeOutcome (α : Type) where
  fetched : Bool
  mockGenerated : Bool
  message : Option String
  results : ResultsUpdate α

namespace Part1

/-- Embedding of `handleAnalyze` from `src/unnamed/part_001` (lines 71-114):
missing inputs and a non-increasing date range alert and return before any
request; otherwise the backend is queried, falling back to mock generation,
and the normalized result is stored.  `message` models `alert(...)`. -/
def handleAnalyze (location dateFrom dateTo : String) (parse : String → ℚ)
    (backendResponse : Option JSVal) (mockData : JSVal) :
    AnalyzeOutcome NormalizedResults :=
  if location = "" ∨ dateFrom = "" ∨ dateTo = "" then
    { fetched := false, mockGenerated := false,
      message := some "Please select location and date range", results := .unchanged }
  else if parse dateTo ≤ parse dateFrom then
    { fetched := false, mockGenerated := false,
      message := some "End date must be after start date", results := .unchanged }
  else
    match backendResponse with
    | some raw =>
      { fetched := true, mockGenerated := false, message := none,
        results := .set (normRD raw) }
    | none =>
      { fetched := true, mockGenerated := true, message := none,
        results := .set (normRD mockData) }

end Part1

/-! ### part_002 (`ComprehensiveApp`) data shapes and aggregation -/

/-- A `conditions` sub-record of a NASA daily-analysis entry. -/
structure Conditions where
  temperature : Option ℚ
  precipitation : Option ℚ
  wind_speed : Option ℚ
  humidity : Option ℚ
  cloud_cover : Option ℚ
  uv_index : Option ℚ
deriving DecidableEq, Repr

def emptyConditions : Conditions := ⟨none, none, none, none, none, none⟩

/-- One entry of `daily_analysis` as read by part_002. -/
structure ApiDaily where
  date : String
  weather_score : Option ℚ
  overall_risk : Option ℚ
  confidence_score : Option ℚ
  conditions : Option Conditions
deriving DecidableEq, Repr

/-- JavaScript `v >= t` when `v` may be `undefined` (`undefined >= t` is
false). -/
def optGE (v : Option ℚ) (t : ℚ) : Bool :=
  match v with
  | some q => t ≤ q
  | none => false

namespace Part2

structure WeatherThresholds where
  veryHot : ℚ
  veryCold : ℚ
  veryWindy : ℚ
  veryWet : ℚ
  veryUncomfortable : ℚ
deriving DecidableEq, Repr

/-- The `weatherThresholds` table of part_002 (lines 85-91). -/
def weatherThresholds : WeatherThresholds :=
  { veryHot := 35, veryCold := -10, veryWindy := 50, veryWet := 20, veryUncomfortable := 40 }

structure ThresholdAnalysis where
  veryHot : Bool
  veryCold : Bool
  veryWindy : Bool
  veryWet : Bool
  veryUncomfortable : Bool
deriving DecidableEq, Repr

/-- The `daily.map(d => d.conditions?.f).filter(v => typeof v === 'number')`
pattern. -/
def condValues (f : Conditions → Option ℚ) (daily : List ApiDaily) : List ℚ :=
  daily.filterMap fun d => d.conditions.bind f

/-- Embedding of `computeThresholdAnalysis` (`src/unnamed/part_002` lines
199-218): aggregate extremes over the numeric condition values and compare
with the fixed thresholds; the wind maximum is in m/s and is converted once
with `* 3.6` before the comparison. -/
def computeThresholdAnalysis (daily : List ApiDaily) : ThresholdAnalysis :=
  let temps := condValues Conditions.temperature daily
  let winds := condValues Conditions.wind_speed daily
  let precs := condValues Conditions.precipitation daily
  let humid := condValues Conditions.humidity daily
  { veryHot :=
      match temps.max? with
      | some m => weatherThresholds.veryHot < m
      | none => false,
    veryCold :=
      match temps.min? with
      | some m => m < weatherThresholds.veryCold
      | none => false,
    veryWindy :=
      match winds.max? with
      | some m => weatherThresholds.veryWindy < m * (18 / 5)
      | none => false,
    veryWet :=
      match precs.max? with
      | some m => weatherThresholds.veryWet < m
      | none => false,
    veryUncomfortable :=
      match humid.max? with
      | some m => weatherThresholds.veryUncomfortable < m
      | none => false }

structure AverageConditions where
  temperature : ℚ
  precipitation : ℚ
  windSpeed : ℚ
  humidity : ℚ
deriving DecidableEq, Repr

def avgQ (l : List ℚ) : ℚ := if l.isEmpty then 0 else l.sum / l.length

/-- Embedding of `aggregateAverageConditions` (part_002 lines 221-233);
`none` models the bare `{}` returned for an empty list. -/
def aggregateAverageConditions (daily : List ApiDaily) : Option AverageConditions :=
  if daily.isEmpty then none
  else some
    { temperature := avgQ (condValues Conditions.temperature daily),
      precipitation := avgQ (condValues Conditions.precipitation daily),
      windSpeed := avgQ (condValues Conditions.wind_speed daily),
      humidity := avgQ (condValues Conditions.humidity daily) }

structure WeatherWindowMeta where
  totalDays : Nat
  suitableDays : Nat
  riskLevel : String
deriving DecidableEq, Repr

/-- Embedding of `computeWeatherWindowMeta` (`src/unnamed/part_002` lines
235-242): day count, count of days with `weather_score >= 60`, and a risk
level from the mean `overall_risk` (missing risks contribute `|| 0`),
cutoffs 140 and 80. -/
def computeWeatherWindowMeta (daily : List ApiDaily) : WeatherWindowMeta :=
  if daily.isEmpty then { totalDays := 0, suitableDays := 0, riskLevel := "unknown" }
  else
    let totalDays := daily.length
    let suitableDays := (daily.filter fun d => optGE d.weather_score 60).length
    let avgRisk := (daily.foldl (fun s d => s + jsOrQ d.overall_risk 0) 0) / totalDays
    let riskLevel := if 140 < avgRisk then "high" else if 80 < avgRisk then "medium" else "low"
    { totalDays := totalDays, suitableDays := suitableDays, riskLevel := riskLevel }

/-- One element of part_002's `bestDays` (built from a recommendation or a
top-scored daily record). -/
structure BestDay where
  date : String
  temperature : Option ℚ
  precipitation : Option ℚ
  windSpeed : Option ℚ
  humidity : Option ℚ
  suitabilityScore : Option ℚ
  overallRisk : Option ℚ
  confidence : Option ℚ
deriving DecidableEq, Repr

/-- Descending `weather_score` comparator for part_002's sorts; records
reaching a sort always carry a numeric score, missing scores are read as 0
(`undefined` arithmetic is not modelled). -/
def apiScoreDesc (a b : ApiDaily) : Prop := b.weather_score.getD 0 ≤ a.weather_score.getD 0

instance : DecidableRel apiScoreDesc := fun a b => inferInstanceAs (Decidable (_ ≤ _))

def toBestDay (d : ApiDaily) : BestDay :=
  { date := d.date,
    temperature := d.conditions.bind Conditions.temperature,
    precipitation := d.conditions.bind Conditions.precipitation,
    windSpeed := d.conditions.bind Conditions.wind_speed,
    humidity := d.conditions.bind Conditions.humidity,
    suitabilityScore := d.weather_score,
    overallRisk := d.overall_risk,
    confidence := d.confidence_score }

structure AltSuggestion where
  date : String
  score : Option ℚ
  temperature : Option ℚ
  precipitation : Option ℚ
  windSpeed : Option ℚ
deriving DecidableEq, Repr

/-- Embedding of `suggestAlternativeDates` (part_002 lines 244-259). -/
def suggestAlternativeDates (daily : List ApiDaily) (bestDays : List BestDay) :
    List AltSuggestion :=
  if daily.isEmpty then []
  else
    let usedDates := bestDays.map BestDay.date
    (((daily.filter fun d => !(usedDates.contains d.date) && optGE d.weather_score 50).insertionSort
        apiScoreDesc).take 5).map fun d =>
      { date := d.date, score := d.weather_score,
        temperature := d.conditions.bind Conditions.temperature,
        precipitation := d.conditions.bind Conditions.precipitation,
        windSpeed := d.conditions.bind Conditions.wind_speed }

/-- The backend reply shape read by `normalizeNASAResult`. -/
structure ApiData where
  daily_analysis : Option (List ApiDaily)
  top_recommendations : Option (List ApiDaily)
  success : Bool
deriving DecidableEq, Repr

/-- The modelled fields of part_002's result shape (`EMPTY_RESULTS` of
part_002, lines 23-34, restricted to the fields the claims constrain). -/
structure Results2 where
  success : Bool
  bestDays : List BestDay
  weatherWindow : WeatherWindowMeta
  thresholdAnalysis : Option ThresholdAnalysis
  averageConditions : Option AverageConditions
  alternativeDates : List AltSuggestion
  location : String
  error : Option String
deriving DecidableEq, Repr

def EMPTY_RESULTS2 : Results2 :=
  { success := false, bestDays := [], weatherWindow := ⟨0, 0, "unknown"⟩,
    thresholdAnalysis := none, averageConditions := none, alternativeDates := [],
    location := "", error := none }

/-- Embedding of `normalizeNASAResult` (part_002 lines 155-197), restricted
to the modelled fields. -/
def normalizeNASAResult (apiData : Option ApiData) (ctxLocation : String) : Results2 :=
  match apiData with
  | none => { EMPTY_RESULTS2 with error := some "No NASA data available", location := ctxLocation }
  | some api =>
    match api.daily_analysis with
    | none =>
      { EMPTY_RESULTS2 with error := some "No NASA data available", location := ctxLocation }
    | some daily =>
      let top :=
        match api.top_recommendations with
        | some l => if l.isEmpty then (daily.insertionSort apiScoreDesc).take 5 else l
        | none => (daily.insertionSort apiScoreDesc).take 5
      let bestDays := top.map toBestDay
      { success := api.success, bestDays := bestDays,
        weatherWindow := computeWeatherWindowMeta daily,
        thresholdAnalysis := some (computeThresholdAnalysis daily),
        averageConditions := aggregateAverageConditions daily,
        alternativeDates := suggestAlternativeDates daily bestDays,
        location := ctxLocation, error := none }

/-- Embedding of `handleAnalyze` from `src/unnamed/part_002` (lines
106-153): missing inputs return silently; a non-increasing date range
stores the empty shape with an error; otherwise the backend is queried
(`backendResponse = none` covers a rejected fetch or non-ok status, which
the catch turns into the empty shape with an error).  This variant has no
mock fallback and no `alert`. -/
def handleAnalyze (location dateFrom dateTo : String) (parse : String → ℚ)
    (backendResponse : Option (Option ApiData)) : AnalyzeOutcome Results2 :=
  if location = "" ∨ dateFrom = "" ∨ dateTo = "" then
    { fetched := false, mockGenerated := false, message := none, results := .unchanged }
  else if parse dateTo ≤ parse dateFrom then
    { fetched := false, mockGenerated := false, message := none,
      results := .set { EMPTY_RESULTS2 with error := some "End date must be after start date." } }
  else
    match backendResponse with
    | some api =>
      { fetched := true, mockGenerated := false, message := none,
        results := .set (normalizeNASAResult api location) }
    | none =>
      { fetched := true, mockGenerated := false, message := none,
        results := .set { EMPTY_RESULTS2 with
          error := some "NASA data fetch failed. Please retry.", location := location } }

end Part2

/-! ### Daily-record mapping and wind-speed conversion
(`EnhancedLocationInput.jsx`: `mappedDaily` lines 1054-1081 in the second
`AlternativeDateFinder` variant, `mapDailyToWeather` lines 604-617 in the
first) -/

/-- A raw NASA daily record as read by the mapping functions.  `dateValid`
models whether `new Date(d.date)` parses (`isNaN(dateObj)`). -/
structure RawDaily where
  date : String
  dateValid : Bool
  conditions : Option Conditions
  temperature_avg : Option ℚ
  temperature : Option ℚ
  precipitation : Option ℚ
  wind_speed : Option ℚ
  windSpeed : Option ℚ
  humidity : Option ℚ
  cloudCover : Option ℚ
  uvIndex : Option ℚ
deriving DecidableEq, Repr

/-- The simplified weather record the mapping produces; `temperature` has no
`?? 0` default in the source and can stay missing. -/
structure MappedDay where
  date : String
  temperature : Option ℚ
  precipitation : ℚ
  windSpeed : ℚ
  humidity : ℚ
  cloudCover : ℚ
  uvIndex : ℚ
deriving DecidableEq, Repr

/-- Embedding of one element of the `mappedDaily` memo (lines 1054-1081):
nullish-coalescing chains over `conditions` and top-level keys, with the
wind value converted from m/s to km/h exactly when it originated from a
`wind_speed` key (`(d.wind_speed || conditions.wind_speed) ? rawWind * 3.6 : rawWind`);
records with unparseable dates are dropped. -/
def mappedDailyOne (d : RawDaily) : Option MappedDay :=
  let conditions := d.conditions.getD emptyConditions
  let temperature := (conditions.temperature.orElse fun _ => d.temperature_avg).orElse
    fun _ => d.temperature
  let precipitation := ((conditions.precipitation.orElse fun _ => d.precipitation)).getD 0
  let rawWind := (((conditions.wind_speed.orElse fun _ => d.wind_speed).orElse
    fun _ => d.windSpeed)).getD 0
  let windSpeed :=
    if optTruthy d.wind_speed || optTruthy conditions.wind_speed then rawWind * (18 / 5)
    else rawWind
  let humidity := (conditions.humidity.orElse fun _ => d.humidity).getD 0
  if !d.dateValid then none
  else some
    { date := d.date, temperature := temperature, precipitation := precipitation,
      windSpeed := windSpeed, humidity := humidity,
      cloudCover := (conditions.cloud_cover.orElse fun _ => d.cloudCover).getD 0,
      uvIndex := (conditions.uv_index.orElse fun _ => d.uvIndex).getD 0 }

def mappedDaily (dailyAnalysis : List RawDaily) : List MappedDay :=
  dailyAnalysis.filterMap mappedDailyOne

/-- Embedding of `mapDailyToWeather` from the first `AlternativeDateFinder`
variant (lines 604-617).  Its conversion guard differs from `mappedDaily`:
`* (d.wind_speed ? 3.6 : 1)` tests only the top-level `wind_speed` key. -/
def mapDailyToWeather (d : RawDaily) : MappedDay :=
  let conditions := d.conditions.getD emptyConditions
  { date := d.date,
    temperature := (conditions.temperature.orElse fun _ => d.temperature_avg).orElse
      fun _ => d.temperature,
    precipitation := (conditions.precipitation.orElse fun _ => d.precipitation).getD 0,
    windSpeed := ((((conditions.wind_speed.orElse fun _ => d.wind_speed).orElse
      fun _ => d.windSpeed)).getD 0) * (if optTruthy d.wind_speed then 18 / 5 else 1),
    humidity := (conditions.humidity.orElse fun _ => d.humidity).getD 0,
    cloudCover := (conditions.cloud_cover.orElse fun _ => d.cloudCover).getD 0,
    uvIndex := (conditions.uv_index.orElse fun _ => d.uvIndex).getD 0 }

/-- The publication invariant of one scanner run: the retained array never
exceeds `topK` entries and draws only from the candidate pool; the published
list is sorted descending, capped at `topK` while the scan is still loading
and at `topK` plus the backend-alternative count afterwards, and every
published entry's date comes from the pool or from the backend
alternatives. -/
def ScanInv (candidates : List Weather) (backendAlt : List BackendAlt) (s : ScanState) : Prop :=
  s.scored.length ≤ topK ∧
  (∀ a ∈ s.scored, a.date ∈ candidates.map Weather.date) ∧
  s.alternativeDates.Sorted entryDesc ∧
  (s.loading = true → s.alternativeDates.length ≤ topK) ∧
  s.alternativeDates.length ≤ topK + backendAlt.length ∧
  (∀ a ∈ s.alternativeDates, a.date ∈ candidates.map Weather.date ∨
    a.date ∈ backendAlt.map BackendAlt.date)

/-- A value that is numeric, or falsy (so that a `|| 0` chain replaces it
with a numeric default). -/
def numOrFalsy (v : JSVal) : Prop := v.isNum = true ∨ v.truthy = false

/-- A value that is a string, or falsy (so that a `|| 'unknown'` chain
replaces it with a string default). -/
def strOrFalsy (v : JSVal) : Prop := v.isStr = true ∨ v.truthy = false

instance (v : JSVal) : Decidable (numOrFalsy v) :=
  inferInstanceAs (Decidable (_ ∨ _))

instance (v : JSVal) : Decidable (strOrFalsy v) :=
  inferInstanceAs (Decidable (_ ∨ _))

/-! ## Theorems -/

theorem le_clamp (lo hi x : ℚ) : lo ≤ max lo (min hi x) := le_max_left _ _

theorem clamp_le {lo hi : ℚ} (x : ℚ) (h : lo ≤ hi) : max lo (min hi x) ≤ hi :=
  max_le h (min_le_left _ _)

theorem mem_optFactor {c : Prop} [Decidable c] {kind : FactorKind} {penalty : ℚ}
    {f : Factor} : f ∈ optFactor c kind penalty ↔ c ∧ f = ⟨kind, penalty⟩ := by
  unfold optFactor
  split <;> simp_all

theorem kind_mem_optFactor {c : Prop} [Decidable c] {kind k2 : FactorKind} {penalty : ℚ} :
    k2 ∈ (optFactor c kind penalty).map Factor.kind ↔ c ∧ k2 = kind := by
  unfold optFactor
  split <;> simp_all

theorem safetyScore_score_eq (w : Weather) (r : Requirements) :
    (calculateSafetyScore w r).score =
      max 0 (min 100 (100 - ((calculateSafetyScore w r).factors.map Factor.penalty).sum)) := rfl

theorem safety_factor_penalty_pos (w : Weather) (r : Requirements) :
    ∀ f ∈ (calculateSafetyScore w r).factors, 0 < f.penalty := by
  intro f hf
  simp only [calculateSafetyScore, List.mem_append, mem_optFactor] at hf
  rcases hf with ((((⟨hc, rfl⟩ | ⟨hc, rfl⟩) | ⟨hc, rfl⟩) | ⟨hc, rfl⟩) | ⟨hc, rfl⟩) | ⟨hc, rfl⟩
  · exact mul_pos (by linarith) (by norm_num)
  · exact mul_pos (by linarith) (by norm_num)
  · exact mul_pos (by linarith) (by norm_num)
  · exact mul_pos (by linarith) (by norm_num)
  · exact mul_pos (by linarith [hc.2]) (by norm_num)
  · exact mul_pos (by linarith) (by norm_num)

/-- Claim C3: for every numeric temperature, precipitation and wind input,
however extreme, each scoring function stays inside its documented clamp
range: `calculateSuitabilityScore` of part_001 and `calculateSafetyScore`
return values in [0,100], and the part_002 `calculateSuitabilityScore`
variant returns values in [50,100]; no result is negative or above 100. -/
theorem claim3_scores_clamped (thresholds : Option ActivityThresholds)
    (temp precip wind : ℚ) (weather : Weather) (requirements : Requirements) :
    (0 ≤ Part1.calculateSuitabilityScore thresholds temp precip wind ∧
      Part1.calculateSuitabilityScore thresholds temp precip wind ≤ 100) ∧
    (50 ≤ Part2.calculateSuitabilityScore thresholds temp precip wind ∧
      Part2.calculateSuitabilityScore thresholds temp precip wind ≤ 100) ∧
    (0 ≤ (calculateSafetyScore weather requirements).score ∧
      (calculateSafetyScore weather requirements).score ≤ 100) := by
  refine ⟨?_, ?_, ?_⟩
  · cases thresholds with
    | none =>
      constructor <;> norm_num [Part1.calculateSuitabilityScore]
    | some t =>
      exact ⟨le_clamp _ _ _, clamp_le _ (by norm_num)⟩
  · cases thresholds with
    | none =>
      constructor <;> norm_num [Part2.calculateSuitabilityScore]
    | some t =>
      exact ⟨le_clamp _ _ _, clamp_le _ (by norm_num)⟩
  · exact ⟨le_clamp _ _ _, clamp_le _ (by norm_num)⟩

/-- Claim C10: `calculateSafetyScore` returns exactly 100 if and only if its
factor list is empty — every recorded factor carries a strictly positive
penalty, so a violated dimension forces the clamped score strictly below
100, and with no violation the score stays 100. -/
theorem claim10_perfect_score_iff_no_factors (w : Weather) (r : Requirements) :
    (calculateSafetyScore w r).score = 100 ↔ (calculateSafetyScore w r).factors = [] := by
  constructor
  · intro h
    by_contra hne
    have hpos : 0 < ((calculateSafetyScore w r).factors.map Factor.penalty).sum := by
      refine List.sum_pos _ ?_ (by simpa using hne)
      intro x hx
      obtain ⟨f, hf, rfl⟩ := List.mem_map.mp hx
      exact safety_factor_penalty_pos w r f hf
    have hlt : (calculateSafetyScore w r).score < 100 := by
      rw [safetyScore_score_eq]
      refine lt_of_le_of_lt
        (max_le_max le_rfl
          (min_le_right 100 (100 - ((calculateSafetyScore w r).factors.map Factor.penalty).sum)))
        ?_
      exact max_lt (by norm_num) (by linarith)
    exact absurd h (ne_of_lt hlt)
  · intro h
    rw [safetyScore_score_eq, h]
    norm_num

/-- Claim C6: an observation exactly on a threshold boundary (temperature
equal to the band's max or min, precipitation equal to the maximum,
wind equal to the maximum, humidity equal to its bound) triggers no penalty
and records no factor for that dimension, in both `calculateSafetyScore`
and part_001's `calculateSuitabilityScore`: penalties fire strictly on
exceedance, not on equality. -/
theorem claim6_boundary_no_penalty (w : Weather) (r : Requirements)
    (t : ActivityThresholds) (temp precip wind : ℚ) :
    (w.temperature = r.temperature.max →
      FactorKind.tooHot ∉ (calculateSafetyScore w r).factors.map Factor.kind) ∧
    (w.temperature = r.temperature.min →
      FactorKind.tooCold ∉ (calculateSafetyScore w r).factors.map Factor.kind) ∧
    (w.precipitation = r.precipitation.max →
      FactorKind.rainRisk ∉ (calculateSafetyScore w r).factors.map Factor.kind) ∧
    (w.windSpeed = r.wind.max →
      FactorKind.tooWindy ∉ (calculateSafetyScore w r).factors.map Factor.kind) ∧
    (∀ m, r.humidity.min = some m → w.humidity = m →
      FactorKind.tooDry ∉ (calculateSafetyScore w r).factors.map Factor.kind) ∧
    (w.humidity = r.humidity.max →
      FactorKind.tooHumid ∉ (calculateSafetyScore w r).factors.map Factor.kind) ∧
    (temp = t.maxTemp → t.minTemp ≤ temp → precip ≤ t.maxRain → wind ≤ t.maxWind →
      Part1.calculateSuitabilityScore (some t) temp precip wind = 100) := by
  refine ⟨?_, ?_, ?_, ?_, ?_, ?_, ?_⟩
  · intro h hmem
    simp [calculateSafetyScore, List.map_append, List.mem_append, kind_mem_optFactor,
      mem_optFactor, and_assoc, exists_and_left, exists_eq_left, h, lt_irrefl] at hmem
  · intro h hmem
    simp [calculateSafetyScore, List.map_append, List.mem_append, kind_mem_optFactor,
      mem_optFactor, and_assoc, exists_and_left, exists_eq_left, h, lt_irrefl] at hmem
  · intro h hmem
    simp [calculateSafetyScore, List.map_append, List.mem_append, kind_mem_optFactor,
      mem_optFactor, and_assoc, exists_and_left, exists_eq_left, h, lt_irrefl] at hmem
  · intro h hmem
    simp [calculateSafetyScore, List.map_append, List.mem_append, kind_mem_optFactor,
      mem_optFactor, and_assoc, exists_and_left, exists_eq_left, h, lt_irrefl] at hmem
  · intro m hmin h hmem
    simp [calculateSafetyScore, List.map_append, List.mem_append, kind_mem_optFactor,
      mem_optFactor, and_assoc, exists_and_left, exists_eq_left, hmin, h, lt_irrefl] at hmem
  · intro h hmem
    simp [calculateSafetyScore, List.map_append, List.mem_append, kind_mem_optFactor,
      mem_optFactor, and_assoc, exists_and_left, exists_eq_left, h, lt_irrefl] at hmem
  · intro h1 h2 h3 h4
    subst h1
    simp only [Part1.calculateSuitabilityScore]
    rw [if_neg (lt_irrefl _), if_neg (not_lt.mpr h2), if_neg (not_lt.mpr h3),
      if_neg (not_lt.mpr h4)]
    norm_num

/-- Concrete boundary instance for claim C6: with every metric sitting
exactly on its threshold no factor is recorded and the suitability score is
a full 100. -/
theorem claim6_boundary_no_penalty_witness :
    (FactorKind.tooHot ∉
      (calculateSafetyScore
        ⟨"d", 20, 5, 15, 50, 0, 0⟩
        ⟨⟨20, 20⟩, ⟨5⟩, ⟨15⟩, ⟨some 50, 50⟩⟩).factors.map Factor.kind) ∧
    (FactorKind.tooCold ∉
      (calculateSafetyScore
        ⟨"d", 20, 5, 15, 50, 0, 0⟩
        ⟨⟨20, 20⟩, ⟨5⟩, ⟨15⟩, ⟨some 50, 50⟩⟩).factors.map Factor.kind) ∧
    (FactorKind.tooDry ∉
      (calculateSafetyScore
        ⟨"d", 20, 5, 15, 50, 0, 0⟩
        ⟨⟨20, 20⟩, ⟨5⟩, ⟨15⟩, ⟨some 50, 50⟩⟩).factors.map Factor.kind) ∧
    Part1.calculateSuitabilityScore (some ⟨25, 5, 10, 3⟩) 25 3 10 = 100 := by
  refine ⟨?_, ?_, ?_, ?_⟩
  · exact (claim6_boundary_no_penalty ⟨"d", 20, 5, 15, 50, 0, 0⟩
      ⟨⟨20, 20⟩, ⟨5⟩, ⟨15⟩, ⟨some 50, 50⟩⟩ ⟨25, 5, 10, 3⟩ 25 3 10).1 rfl
  · exact (claim6_boundary_no_penalty ⟨"d", 20, 5, 15, 50, 0, 0⟩
      ⟨⟨20, 20⟩, ⟨5⟩, ⟨15⟩, ⟨some 50, 50⟩⟩ ⟨25, 5, 10, 3⟩ 25 3 10).2.1 rfl
  · exact (claim6_boundary_no_penalty ⟨"d", 20, 5, 15, 50, 0, 0⟩
      ⟨⟨20, 20⟩, ⟨5⟩, ⟨15⟩, ⟨some 50, 50⟩⟩ ⟨25, 5, 10, 3⟩ 25 3 10).2.2.2.2.1 50 rfl rfl
  · exact (claim6_boundary_no_penalty ⟨"d", 20, 5, 15, 50, 0, 0⟩
      ⟨⟨20, 20⟩, ⟨5⟩, ⟨15⟩, ⟨some 50, 50⟩⟩ ⟨25, 5, 10, 3⟩ 25 3 10).2.2.2.2.2.2 rfl
      (by norm_num) (by norm_num) (by norm_num)

theorem jsOrQ_zero (v : Option ℚ) : jsOrQ v 0 = v.getD 0 := by
  cases v with
  | none => rfl
  | some q =>
    by_cases hq : q = 0 <;> simp [jsOrQ, hq]

theorem foldl_add_eq_sum_map {α : Type} (f : α → ℚ) (l : List α) :
    ∀ init : ℚ, l.foldl (fun s d => s + f d) init = init + (l.map f).sum := by
  induction l with
  | nil => intro init; simp
  | cons a l ih =>
    intro init
    simp [ih, add_assoc]

/-- Claim C7: `computeWeatherWindowMeta` reports the list's length as
`totalDays`, the number of records with `weather_score >= 60` as
`suitableDays` (hence `suitableDays <= totalDays`), and a risk level of
`high` when the mean `overall_risk` (missing values counted as 0) exceeds
140, `medium` when it exceeds 80 but not 140, `low` otherwise; the empty
list yields 0 / 0 / `unknown`. -/
theorem claim7_weather_window_meta (daily : List ApiDaily) (h : daily ≠ []) :
    ((Part2.computeWeatherWindowMeta daily).totalDays = daily.length ∧
      (Part2.computeWeatherWindowMeta daily).suitableDays =
        daily.countP (fun d => optGE d.weather_score 60) ∧
      (Part2.computeWeatherWindowMeta daily).suitableDays ≤
        (Part2.computeWeatherWindowMeta daily).totalDays ∧
      (Part2.computeWeatherWindowMeta daily).riskLevel =
        (if 140 < (daily.map fun d => d.overall_risk.getD 0).sum / (daily.length : ℚ) then "high"
         else if 80 < (daily.map fun d => d.overall_risk.getD 0).sum / (daily.length : ℚ) then
           "medium"
         else "low")) ∧
    Part2.computeWeatherWindowMeta [] = ⟨0, 0, "unknown"⟩ := by
  have hne : daily.isEmpty = false := by
    cases daily with
    | nil => exact absurd rfl h
    | cons a l => rfl
  have hfun : (fun d : ApiDaily => jsOrQ d.overall_risk 0) =
      fun d : ApiDaily => d.overall_risk.getD 0 :=
    funext fun d => jsOrQ_zero _
  have hfold : daily.foldl (fun s d => s + jsOrQ d.overall_risk 0) 0 =
      (daily.map fun d => d.overall_risk.getD 0).sum := by
    calc daily.foldl (fun s d => s + jsOrQ d.overall_risk 0) 0
        = 0 + (daily.map fun d : ApiDaily => jsOrQ d.overall_risk 0).sum :=
          foldl_add_eq_sum_map _ daily 0
      _ = (daily.map fun d : ApiDaily => d.overall_risk.getD 0).sum := by
          rw [hfun, zero_add]
  refine ⟨⟨?_, ?_, ?_, ?_⟩, rfl⟩
  · simp [Part2.computeWeatherWindowMeta, hne]
  · simp [Part2.computeWeatherWindowMeta, hne, List.countP_eq_length_filter]
  · simp only [Part2.computeWeatherWindowMeta, hne, Bool.false_eq_true, if_false]
    exact List.length_filter_le _ _
  · simp only [Part2.computeWeatherWindowMeta, hne, Bool.false_eq_true, if_false, hfold]

/-- Concrete instance for claim C7: a two-day window with one suitable day
and mean risk 100 is classified `medium`. -/
theorem claim7_weather_window_meta_witness :
    (Part2.computeWeatherWindowMeta
        [⟨"a", some 70, some 150, none, none⟩, ⟨"b", some 40, some 50, none, none⟩]).totalDays = 2 ∧
    (Part2.computeWeatherWindowMeta
        [⟨"a", some 70, some 150, none, none⟩, ⟨"b", some 40, some 50, none, none⟩]).suitableDays =
      List.countP (fun d => optGE d.weather_score 60)
        ([⟨"a", some 70, some 150, none, none⟩, ⟨"b", some 40, some 50, none, none⟩] :
          List ApiDaily) ∧
    (Part2.computeWeatherWindowMeta
        [⟨"a", some 70, some 150, none, none⟩, ⟨"b", some 40, some 50, none, none⟩]).riskLevel =
      "medium" := by
  have h := claim7_weather_window_meta
    [⟨"a", some 70, some 150, none, none⟩, ⟨"b", some 40, some 50, none, none⟩]
    (by simp)
  refine ⟨h.1.1, h.1.2.1, ?_⟩
  rw [h.1.2.2.2]
  norm_num

/-- Counterexample to claim C8: a record whose wind value originates from
the `conditions.wind_speed` key but has no top-level `wind_speed` key is
left unconverted by `mapDailyToWeather` (5 m/s stays 5, not 18 km/h). -/
theorem claim8_wind_conversion_counterexample :
    (mapDailyToWeather ⟨"2025-01-01", true, some ⟨none, none, some 5, none, none, none⟩,
        none, none, none, none, none, none, none, none⟩).windSpeed = 5 ∧
    ¬((mapDailyToWeather ⟨"2025-01-01", true, some ⟨none, none, some 5, none, none, none⟩,
        none, none, none, none, none, none, none, none⟩).windSpeed = 5 * (18 / 5)) := by
  with_unfolding_all decide

/-- Claim C8 as amended: in `mappedDaily`, a wind value originating from
either `wind_speed` key is multiplied by exactly 3.6 and a `windSpeed`-only
value is left unchanged; the backend merge never reconverts (an
already-mapped record is reused as-is, and an alternative's own `windSpeed`
is taken verbatim); `computeThresholdAnalysis` converts the m/s maximum
exactly once for its comparison.  In the `mapDailyToWeather` variant,
however, the conversion is keyed on the top-level `wind_speed` field only,
so a value taken from `conditions.wind_speed` alone is left unconverted. -/
theorem claim8_wind_conversion_amended :
    (∀ (d : RawDaily) (q : ℚ) (m : MappedDay), d.dateValid = true →
      (d.conditions.getD emptyConditions).wind_speed = some q →
      mappedDailyOne d = some m → m.windSpeed = q * (18 / 5)) ∧
    (∀ (d : RawDaily) (q : ℚ) (m : MappedDay), d.dateValid = true →
      (d.conditions.getD emptyConditions).wind_speed = none →
      d.wind_speed = some q →
      mappedDailyOne d = some m → m.windSpeed = q * (18 / 5)) ∧
    (∀ (d : RawDaily) (m : MappedDay), d.dateValid = true →
      (d.conditions.getD emptyConditions).wind_speed = none →
      d.wind_speed = none →
      mappedDailyOne d = some m → m.windSpeed = d.windSpeed.getD 0) ∧
    (∀ (mapped : List Weather) (alt : BackendAlt) (w : Weather),
      mapped.find? (fun x => x.date = alt.date) = some w →
      altWeather mapped alt = w) ∧
    (∀ (mapped : List Weather) (alt : BackendAlt),
      mapped.find? (fun x => x.date = alt.date) = none →
      (altWeather mapped alt).windSpeed = alt.windSpeed) ∧
    (∀ (daily : List ApiDaily) (mx : ℚ),
      (Part2.condValues Conditions.wind_speed daily).max? = some mx →
      (Part2.computeThresholdAnalysis daily).veryWindy =
        decide (Part2.weatherThresholds.veryWindy < mx * (18 / 5))) ∧
    (∀ d : RawDaily, optTruthy d.wind_speed = false →
      (mapDailyToWeather d).windSpeed =
        (((d.conditions.getD emptyConditions).wind_speed.orElse fun _ => d.wind_speed).orElse
          fun _ => d.windSpeed).getD 0) ∧
    (∀ d : RawDaily, optTruthy d.wind_speed = true →
      (mapDailyToWeather d).windSpeed =
        ((((d.conditions.getD emptyConditions).wind_speed.orElse fun _ => d.wind_speed).orElse
          fun _ => d.windSpeed).getD 0) * (18 / 5)) := by
  refine ⟨?_, ?_, ?_, ?_, ?_, ?_, ?_, ?_⟩
  · intro d q m hd hc hm
    simp only [mappedDailyOne, hd, hc, Bool.not_true, Bool.false_eq_true, if_false,
      Option.orElse, Option.getD_some, Option.some.injEq] at hm
    subst hm
    by_cases hq : q = 0
    · subst hq
      split <;> simp
    · have : optTruthy (some q) = true := by simp [optTruthy, hq]
      simp [this]
  · intro d q m hd hc hw hm
    simp only [mappedDailyOne, hd, hc, hw, Bool.not_true, Bool.false_eq_true, if_false,
      Option.orElse, Option.getD_some, Option.some.injEq] at hm
    subst hm
    by_cases hq : q = 0
    · subst hq
      split <;> simp
    · have : optTruthy (some q) = true := by simp [optTruthy, hq]
      simp [hw, this, optTruthy, hq]
  · intro d m hd hc hw hm
    simp only [mappedDailyOne, hd, hc, hw, Bool.not_true, Bool.false_eq_true, if_false,
      Option.orElse, Option.some.injEq] at hm
    subst hm
    simp [hw, hc, optTruthy]
  · intro mapped alt w hfind
    simp [altWeather, hfind]
  · intro mapped alt hfind
    simp [altWeather, hfind]
  · intro daily mx hmx
    simp only [Part2.computeThresholdAnalysis, hmx]
  · intro d hw
    simp [mapDailyToWeather, hw]
  · intro d hw
    simp [mapDailyToWeather, hw]

/-- Concrete instance for claim C8 as amended: a 5 m/s value from
`conditions.wind_speed` maps to 18 km/h in `mappedDaily`, and a merge hit
reuses the mapped record unchanged. -/
theorem claim8_wind_conversion_witness :
    (⟨"2025-01-01", none, 0, 18, 0, 0, 0⟩ : MappedDay).windSpeed = 5 * (18 / 5) ∧
    altWeather [⟨"2025-01-01", 20, 0, 18, 50, 0, 0⟩]
      ⟨"2025-01-01", 20, 0, 5, none, none, none⟩ = ⟨"2025-01-01", 20, 0, 18, 50, 0, 0⟩ := by
  constructor
  · exact (claim8_wind_conversion_amended).1
      ⟨"2025-01-01", true, some ⟨none, none, some 5, none, none, none⟩,
        none, none, none, none, none, none, none, none⟩ 5
      ⟨"2025-01-01", none, 0, 18, 0, 0, 0⟩ rfl rfl (by with_unfolding_all decide)
  · exact (claim8_wind_conversion_amended).2.2.2.1
      [⟨"2025-01-01", 20, 0, 18, 50, 0, 0⟩] ⟨"2025-01-01", 20, 0, 5, none, none, none⟩
      ⟨"2025-01-01", 20, 0, 18, 50, 0, 0⟩ (by with_unfolding_all decide)

/-- Counterexample to claim C9: in the part_002 variant a missing location
aborts silently — the results state is left unchanged and no message is
surfaced, instead of the empty default shape with an error message. -/
theorem claim9_validation_counterexample :
    (Part2.handleAnalyze "" "2025-07-01" "2025-07-31" (fun _ => 0) none).results =
      ResultsUpdate.unchanged ∧
    (Part2.handleAnalyze "" "2025-07-01" "2025-07-31" (fun _ => 0) none).message = none := by
  constructor <;> simp [Part2.handleAnalyze]

/-- Claim C9 as amended: whenever location, dateFrom or dateTo is missing,
or the end date is not strictly after the start date, neither variant
issues a backend request or generates mock data.  part_001 surfaces both
conditions as an alert and leaves the results state unchanged; part_002
sets the empty default shape with an error message for the date-order
violation but returns silently (no message, results unchanged) for missing
inputs. -/
theorem claim9_validation_amended (loc df dt : String) (parse : String → ℚ)
    (resp1 : Option JSVal) (mock : JSVal) (resp2 : Option (Option Part2.ApiData)) :
    (loc = "" ∨ df = "" ∨ dt = "" →
      Part1.handleAnalyze loc df dt parse resp1 mock =
        ⟨false, false, some "Please select location and date range", .unchanged⟩) ∧
    (loc = "" ∨ df = "" ∨ dt = "" →
      Part2.handleAnalyze loc df dt parse resp2 = ⟨false, false, none, .unchanged⟩) ∧
    (¬(loc = "" ∨ df = "" ∨ dt = "") → parse dt ≤ parse df →
      Part1.handleAnalyze loc df dt parse resp1 mock =
        ⟨false, false, some "End date must be after start date", .unchanged⟩) ∧
    (¬(loc = "" ∨ df = "" ∨ dt = "") → parse dt ≤ parse df →
      Part2.handleAnalyze loc df dt parse resp2 =
        ⟨false, false, none,
          .set { Part2.EMPTY_RESULTS2 with
            error := some "End date must be after start date." }⟩) := by
  refine ⟨?_, ?_, ?_, ?_⟩
  · intro h
    simp only [Part1.handleAnalyze]
    rw [if_pos h]
  · intro h
    simp only [Part2.handleAnalyze]
    rw [if_pos h]
  · intro h1 h2
    simp only [Part1.handleAnalyze]
    rw [if_neg h1, if_pos h2]
  · intro h1 h2
    simp only [Part2.handleAnalyze]
    rw [if_neg h1, if_pos h2]

/-- Concrete instance for claim C9 as amended: an empty location makes
part_001 alert without analyzing, and a reversed date range makes part_002
store the empty shape with an error. -/
theorem claim9_validation_witness :
    Part1.handleAnalyze "" "2025-07-01" "2025-07-31" (fun _ => 0) none JSVal.null =
      ⟨false, false, some "Please select location and date range", .unchanged⟩ ∧
    Part2.handleAnalyze "Almaty" "2025-07-31" "2025-07-01"
        (fun s => if s = "2025-07-01" then (1 : ℚ) else 2) none =
      ⟨false, false, none,
        .set { Part2.EMPTY_RESULTS2 with
          error := some "End date must be after start date." }⟩ := by
  constructor
  · exact (claim9_validation_amended "" "2025-07-01" "2025-07-31" (fun _ => 0) none
      JSVal.null none).1 (Or.inl rfl)
  · exact (claim9_validation_amended "Almaty" "2025-07-31" "2025-07-01"
      (fun s => if s = "2025-07-01" then (1 : ℚ) else 2) none JSVal.null none).2.2.2
      (by simp) (by simp)

theorem getProp_of_truthy {v : JSVal} (h : v.truthy = true) (k : String) :
    v.getProp k = some (getPropD v k) := by
  cases v <;> simp_all [JSVal.truthy, JSVal.getProp, getPropD]

theorem jsOr_truthy_of_right {a b : JSVal} (h : b.truthy = true) :
    (jsOr a b).truthy = true := by
  unfold jsOr
  split <;> simp_all

theorem windowSource_truthy (data : JSVal) : (windowSource data).truthy = true :=
  jsOr_truthy_of_right rfl

theorem jsOr_chain_isNum {a b : JSVal} (ha : numOrFalsy a) (hb : numOrFalsy b) :
    (jsOr (jsOr a b) (JSVal.num 0)).isNum = true := by
  unfold jsOr
  rcases ha with ha | ha <;> rcases hb with hb | hb <;>
    by_cases h1 : a.truthy <;> by_cases h2 : b.truthy <;>
      simp_all [JSVal.isNum]

theorem jsOr_chain_isStr {a b : JSVal} (ha : strOrFalsy a) (hb : strOrFalsy b) :
    (jsOr (jsOr a b) (JSVal.str "unknown")).isStr = true := by
  unfold jsOr
  rcases ha with ha | ha <;> rcases hb with hb | hb <;>
    by_cases h1 : a.truthy <;> by_cases h2 : b.truthy <;>
      simp_all [JSVal.isStr]

theorem normalizeResults_object (data : JSVal) (h1 : data.truthy = true)
    (h2 : data.typeofObject = true) :
    normalizeResults data = some (normalizeObjectView data) := by
  unfold normalizeResults
  rw [if_neg (by simp [h1, h2])]
  rw [getProp_of_truthy h1 "bestDays", getProp_of_truthy h1 "best_days",
    getProp_of_truthy h1 "weatherWindow", getProp_of_truthy h1 "weather_window_summary",
    getProp_of_truthy h1 "weather_window"]
  simp only [Option.bind_eq_bind, Option.some_bind]
  have hwt : ∀ a : JSVal, (jsOr a (JSVal.obj [])).truthy = true := fun a =>
    jsOr_truthy_of_right rfl
  rw [getProp_of_truthy (hwt _) "totalDays", getProp_of_truthy (hwt _) "total_days",
    getProp_of_truthy (hwt _) "suitableDays", getProp_of_truthy (hwt _) "suitable_days",
    getProp_of_truthy (hwt _) "riskLevel", getProp_of_truthy (hwt _) "risk_level"]
  simp only [Option.bind_eq_bind, Option.some_bind]
  rfl

/-- Counterexample to claim C4: `normalizeResults` passes truthy non-numeric
window values straight through — on
`{ weatherWindow: { totalDays: "x", riskLevel: 7 } }` the output's
`totalDays` is not numeric and its `riskLevel` is not a string. -/
theorem claim4_normalize_counterexample :
    ((normRD (JSVal.obj [("weatherWindow",
        JSVal.obj [("totalDays", JSVal.str "x"), ("riskLevel", JSVal.num 7)])])
      ).weatherWindow.totalDays).isNum = false ∧
    ((normRD (JSVal.obj [("weatherWindow",
        JSVal.obj [("totalDays", JSVal.str "x"), ("riskLevel", JSVal.num 7)])])
      ).weatherWindow.riskLevel).isStr = false ∧
    (normalizeResults (JSVal.obj [("weatherWindow",
        JSVal.obj [("totalDays", JSVal.str "x"), ("riskLevel", JSVal.num 7)])])).isSome
      = true := by
  with_unfolding_all decide

/-- Claim C4 as amended: `normalizeResults` never throws on any JavaScript
value and always yields an array `bestDays`; on `null` or a non-object it
yields the default empty shape with the error field set; the window fields
`totalDays`/`suitableDays` are numeric and `riskLevel` is a string whenever
the corresponding input window keys hold numbers (resp. strings) or falsy
values — a truthy value of another type is passed through unchanged. -/
theorem claim4_normalize_amended (data : JSVal) :
    (normalizeResults data).isSome = true ∧
    (∀ r, normalizeResults data = some r → r.bestDays.isArray = true) ∧
    (data.truthy = false ∨ data.typeofObject = false →
      normalizeResults data =
        some { EMPTY_RESULTS with error := some (.str "Invalid data structure") }) ∧
    (∀ r, normalizeResults data = some r →
      (numOrFalsy (getPropD (windowSource data) "totalDays") →
        numOrFalsy (getPropD (windowSource data) "total_days") →
        r.weatherWindow.totalDays.isNum = true) ∧
      (numOrFalsy (getPropD (windowSource data) "suitableDays") →
        numOrFalsy (getPropD (windowSource data) "suitable_days") →
        r.weatherWindow.suitableDays.isNum = true) ∧
      (strOrFalsy (getPropD (windowSource data) "riskLevel") →
        strOrFalsy (getPropD (windowSource data) "risk_level") →
        r.weatherWindow.riskLevel.isStr = true)) := by
  by_cases hg : data.truthy = true ∧ data.typeofObject = true
  · obtain ⟨h1, h2⟩ := hg
    have heq := normalizeResults_object data h1 h2
    refine ⟨by rw [heq]; rfl, ?_, ?_, ?_⟩
    · intro r hr
      rw [heq] at hr
      obtain rfl := Option.some.inj hr.symm
      simp only [normalizeObjectView]
      split <;> simp_all [JSVal.isArray]
    · intro h
      rcases h with h | h
      · rw [h1] at h; exact absurd h (by simp)
      · rw [h2] at h; exact absurd h (by simp)
    · intro r hr
      rw [heq] at hr
      obtain rfl := Option.some.inj hr.symm
      refine ⟨?_, ?_, ?_⟩
      · intro ha hb
        exact jsOr_chain_isNum ha hb
      · intro ha hb
        exact jsOr_chain_isNum ha hb
      · intro ha hb
        exact jsOr_chain_isStr ha hb
  · have hg2 : (!data.truthy || !data.typeofObject) = true := by
      cases hb : data.truthy <;> cases ho : data.typeofObject <;> simp_all
    have heq : normalizeResults data =
        some { EMPTY_RESULTS with error := some (.str "Invalid data structure") } := by
      unfold normalizeResults
      rw [if_pos hg2]
    refine ⟨by rw [heq]; rfl, ?_, fun _ => heq, ?_⟩
    · intro r hr
      rw [heq] at hr
      obtain rfl := Option.some.inj hr.symm
      rfl
    · intro r hr
      rw [heq] at hr
      obtain rfl := Option.some.inj hr.symm
      exact ⟨fun _ _ => rfl, fun _ _ => rfl, fun _ _ => rfl⟩

/-- Concrete instance for claim C4 as amended: a deeply-nested snake_case
input yields a numeric `totalDays`, and the full output record on that
input has an array `bestDays`. -/
theorem claim4_normalize_witness :
    ((normRD (JSVal.obj [("weather_window_summary",
        JSVal.obj [("total_days", JSVal.num 31)])])).weatherWindow.totalDays).isNum = true ∧
    ((normRD JSVal.null).bestDays).isArray = true := by
  constructor
  · obtain ⟨r, hr⟩ := Option.isSome_iff_exists.mp
      (claim4_normalize_amended (JSVal.obj [("weather_window_summary",
        JSVal.obj [("total_days", JSVal.num 31)])])).1
    have h4 := ((claim4_normalize_amended (JSVal.obj [("weather_window_summary",
        JSVal.obj [("total_days", JSVal.num 31)])])).2.2.2 r hr).1
      (by with_unfolding_all decide) (by with_unfolding_all decide)
    rw [normRD, hr]
    exact h4
  · obtain ⟨r, hr⟩ := Option.isSome_iff_exists.mp (claim4_normalize_amended JSVal.null).1
    have h2 := (claim4_normalize_amended JSVal.null).2.1 r hr
    rw [normRD, hr]
    exact h2

open List

theorem worstIdxGo_spec (rest : List ScoredEntry) : ∀ (bs : ℚ) (i b : Nat),
    (worstIdxGo rest bs i b = b ∧ ∀ x ∈ rest, bs ≤ x.safetyScore) ∨
    (∃ j, ∃ hj : j < rest.length, worstIdxGo rest bs i b = i + j ∧
      (rest.get ⟨j, hj⟩).safetyScore < bs ∧
      ∀ x ∈ rest, (rest.get ⟨j, hj⟩).safetyScore ≤ x.safetyScore) := by
  induction rest with
  | nil =>
    intro bs i b
    left
    exact ⟨rfl, by simp⟩
  | cons e r ih =>
    intro bs i b
    by_cases he : e.safetyScore < bs
    · right
      have hgo : worstIdxGo (e :: r) bs i b = worstIdxGo r e.safetyScore (i + 1) i := by
        simp [worstIdxGo, he]
      rcases ih e.safetyScore (i + 1) i with ⟨hr, hall⟩ | ⟨j, hj, hr, hlt, hall⟩
      · refine ⟨0, by simp, ?_, by simpa using he, ?_⟩
        · rw [hgo, hr]
          omega
        · intro x hx
          rcases List.mem_cons.mp hx with rfl | hx
          · simp
          · simpa using hall x hx
      · refine ⟨j + 1, by simpa using Nat.succ_lt_succ hj, ?_, ?_, ?_⟩
        · rw [hgo, hr]
          omega
        · simpa using lt_trans hlt he
        · intro x hx
          rcases List.mem_cons.mp hx with rfl | hx
          · simpa using le_of_lt hlt
          · simpa using hall x hx
    · have hgo : worstIdxGo (e :: r) bs i b = worstIdxGo r bs (i + 1) b := by
        simp [worstIdxGo, he]
      rcases ih bs (i + 1) b with ⟨hr, hall⟩ | ⟨j, hj, hr, hlt, hall⟩
      · left
        refine ⟨by rw [hgo, hr], ?_⟩
        intro x hx
        rcases List.mem_cons.mp hx with rfl | hx
        · exact not_lt.mp he
        · exact hall x hx
      · right
        refine ⟨j + 1, by simpa using Nat.succ_lt_succ hj, ?_, ?_, ?_⟩
        · rw [hgo, hr]
          omega
        · simpa using hlt
        · intro x hx
          rcases List.mem_cons.mp hx with rfl | hx
          · simpa using le_trans (le_of_lt hlt) (not_lt.mp he)
          · simpa using hall x hx

theorem worstIdx_spec (L : List ScoredEntry) (h : L ≠ []) :
    ∃ hlt : worstIdx L < L.length,
      ∀ x ∈ L, (L.get ⟨worstIdx L, hlt⟩).safetyScore ≤ x.safetyScore := by
  match L with
  | [] => exact absurd rfl h
  | e :: r =>
    rcases worstIdxGo_spec r e.safetyScore 1 0 with ⟨hr, hall⟩ | ⟨j, hj, hr, hlt, hall⟩
    · have hw : worstIdx (e :: r) = 0 := hr
      refine ⟨by simp [hw], ?_⟩
      intro x hx
      rcases List.mem_cons.mp hx with rfl | hx
      · simp [hw]
      · simpa [hw] using hall x hx
    · have hw : worstIdx (e :: r) = j + 1 := by
        show worstIdxGo r e.safetyScore 1 0 = j + 1
        omega
      have hwlt : worstIdx (e :: r) < (e :: r).length := by
        simp [hw]
        omega
      refine ⟨hwlt, ?_⟩
      have hget : (e :: r).get ⟨worstIdx (e :: r), hwlt⟩ = r.get ⟨j, hj⟩ := by
        have haux : ∀ (n : Nat) (hn : n < (e :: r).length), n = j + 1 →
            (e :: r).get ⟨n, hn⟩ = r.get ⟨j, hj⟩ := by
          intro n hn hn2
          subst hn2
          rfl
        exact haux _ hwlt hw
      intro x hx
      rw [hget]
      rcases List.mem_cons.mp hx with rfl | hx
      · exact le_of_lt hlt
      · exact hall x hx

theorem eraseIdx_cons_perm {α : Type} (L : List α) (i : Nat) (hi : i < L.length) :
    L ~ L.get ⟨i, hi⟩ :: L.eraseIdx i := by
  have hd : L.get ⟨i, hi⟩ :: L.drop (i + 1) = L.drop i := by
    simpa using List.getElem_cons_drop L i hi
  calc L = L.take i ++ L.drop i := (List.take_append_drop i L).symm
    _ = L.take i ++ (L.get ⟨i, hi⟩ :: L.drop (i + 1)) := by rw [hd]
    _ ~ L.get ⟨i, hi⟩ :: (L.take i ++ L.drop (i + 1)) := List.perm_middle
    _ = L.get ⟨i, hi⟩ :: L.eraseIdx i := by rw [List.eraseIdx_eq_take_drop_succ]

theorem eraseWorst_scores_perm (L : List ScoredEntry) (h : L ≠ []) :
    ∃ m : ℚ, m ∈ L.map ScoredEntry.safetyScore ∧
      (∀ y ∈ L.map ScoredEntry.safetyScore, m ≤ y) ∧
      (L.eraseIdx (worstIdx L)).map ScoredEntry.safetyScore ~
        (L.map ScoredEntry.safetyScore).erase m := by
  obtain ⟨hlt, hmin⟩ := worstIdx_spec L h
  refine ⟨(L.get ⟨worstIdx L, hlt⟩).safetyScore, ?_, ?_, ?_⟩
  · exact List.mem_map_of_mem _ (L.get_mem _ _)
  · intro y hy
    obtain ⟨x, hx, rfl⟩ := List.mem_map.mp hy
    exact hmin x hx
  · have hperm : L ~ L.get ⟨worstIdx L, hlt⟩ :: L.eraseIdx (worstIdx L) :=
      eraseIdx_cons_perm L (worstIdx L) hlt
    have h2 : L.map ScoredEntry.safetyScore ~
        (L.get ⟨worstIdx L, hlt⟩).safetyScore ::
          (L.eraseIdx (worstIdx L)).map ScoredEntry.safetyScore := by
      simpa using hperm.map ScoredEntry.safetyScore
    have h3 := h2.erase (L.get ⟨worstIdx L, hlt⟩).safetyScore
    rw [List.erase_cons_head] at h3
    exact h3.symm

theorem orderedInsert_take (r : ℚ → ℚ → Prop) [DecidableRel r] (x : ℚ) :
    ∀ (l : List ℚ) (k : Nat),
      (List.orderedInsert r x (l.take k)).take k = (List.orderedInsert r x l).take k := by
  intro l
  induction l with
  | nil => intro k; simp
  | cons b t ih =>
    intro k
    cases k with
    | zero => simp
    | succ m =>
      by_cases hr : r x b
      · simp only [List.take_succ_cons, List.orderedInsert, if_pos hr]
        cases m with
        | zero => simp
        | succ n =>
          simp [List.take_take]
      · simp only [List.take_succ_cons, List.orderedInsert, if_neg hr]
        rw [ih m]

theorem orderedInsert_sort_append (x : ℚ) (l : List ℚ) :
    List.orderedInsert scoreDesc x (l.insertionSort scoreDesc) =
      (l ++ [x]).insertionSort scoreDesc := by
  refine List.eq_of_perm_of_sorted (r := scoreDesc) ?_ ?_ ?_
  · calc List.orderedInsert scoreDesc x (l.insertionSort scoreDesc)
        ~ x :: l.insertionSort scoreDesc := List.perm_orderedInsert _ _ _
      _ ~ x :: l := (List.perm_insertionSort _ _).cons x
      _ ~ l ++ [x] := (List.perm_append_singleton x l).symm
      _ ~ (l ++ [x]).insertionSort scoreDesc := (List.perm_insertionSort _ _).symm
  · exact List.Sorted.orderedInsert _ _ (List.sorted_insertionSort _ _)
  · exact List.sorted_insertionSort _ _

theorem foldl_specStep_eq (P : List ℚ) :
    P.foldl specStep [] = (P.insertionSort scoreDesc).take topK := by
  induction P using List.reverseRecOn with
  | nil => simp [List.insertionSort]
  | append_singleton l x ih =>
    rw [List.foldl_append, List.foldl_cons, List.foldl_nil, ih]
    show (List.orderedInsert scoreDesc x
      ((l.insertionSort scoreDesc).take topK)).take topK = _
    rw [orderedInsert_take, orderedInsert_sort_append]

theorem length_one_eq_singleton {α : Type} (l : List α) (h : l.length = 1) :
    ∃ y, l = [y] := by
  match l, h with
  | [y], _ => exact ⟨y, rfl⟩

theorem sorted_desc_erase_min (C : List ℚ) (hs : C.Sorted scoreDesc) (m : ℚ)
    (hmem : m ∈ C) (hmin : ∀ y ∈ C, m ≤ y) (k : Nat) (hlen : C.length = k + 1) :
    C.erase m ~ C.take k := by
  obtain ⟨y, hy⟩ := length_one_eq_singleton (C.drop k) (by simp [hlen])
  have hCeq : C = C.take k ++ [y] := by
    conv_lhs => rw [← List.take_append_drop k C]
    rw [hy]
  have hmy : m ≤ y := by
    refine hmin y ?_
    rw [hCeq]
    exact List.mem_append_right _ (List.mem_singleton_self y)
  have hym : y ≤ m := by
    have hm2 := hmem
    rw [hCeq] at hm2
    rcases List.mem_append.mp hm2 with hm2 | hm2
    · exact hs.rel_of_mem_take_of_mem_drop hm2
        (by rw [hy]; exact List.mem_singleton_self y)
    · have hm3 : m = y := List.mem_singleton.mp hm2
      rw [hm3]
  have hmyeq : m = y := le_antisymm hmy hym
  have hp : C ~ m :: C.take k := by
    rw [hmyeq]
    conv_lhs => rw [hCeq]
    exact List.perm_append_singleton y (C.take k)
  calc C.erase m ~ (m :: C.take k).erase m := hp.erase m
    _ = C.take k := List.erase_cons_head _ _

theorem pushEntry_spec (A : List ScoredEntry) (B : List ℚ) (e : ScoredEntry)
    (hperm : A.map ScoredEntry.safetyScore ~ B) (hsort : B.Sorted scoreDesc)
    (hlen : B.length ≤ topK) :
    ((pushEntry A e).map ScoredEntry.safetyScore ~ specStep B e.safetyScore) ∧
    (specStep B e.safetyScore).Sorted scoreDesc ∧
    (specStep B e.safetyScore).length ≤ topK := by
  have hC_perm : List.orderedInsert scoreDesc e.safetyScore B ~ e.safetyScore :: B :=
    List.perm_orderedInsert _ _ _
  have hC_sort : (List.orderedInsert scoreDesc e.safetyScore B).Sorted scoreDesc :=
    List.Sorted.orderedInsert _ _ hsort
  have hC_len : (List.orderedInsert scoreDesc e.safetyScore B).length = B.length + 1 := by
    simpa using hC_perm.length_eq
  have hA_len : (A.map ScoredEntry.safetyScore).length = B.length := hperm.length_eq
  have hA_len2 : A.length = B.length := by simpa using hA_len
  have hAeC : (A ++ [e]).map ScoredEntry.safetyScore ~
      List.orderedInsert scoreDesc e.safetyScore B := by
    calc (A ++ [e]).map ScoredEntry.safetyScore
        = A.map ScoredEntry.safetyScore ++ [e.safetyScore] := by simp
      _ ~ e.safetyScore :: A.map ScoredEntry.safetyScore :=
          List.perm_append_singleton _ _
      _ ~ e.safetyScore :: B := hperm.cons _
      _ ~ List.orderedInsert scoreDesc e.safetyScore B := hC_perm.symm
  have hlApp : (A ++ [e]).length = A.length + 1 := by simp
  refine ⟨?_, ?_, ?_⟩
  · by_cases hover : topK < (A ++ [e]).length
    · have hBK : B.length = topK := by omega
      have hpush : pushEntry A e = (A ++ [e]).eraseIdx (worstIdx (A ++ [e])) := by
        unfold pushEntry
        rw [if_pos hover]
      obtain ⟨m, hm_mem, hm_min, hm_perm⟩ := eraseWorst_scores_perm (A ++ [e]) (by simp)
      have hm_memC : m ∈ List.orderedInsert scoreDesc e.safetyScore B := hAeC.mem_iff.mp hm_mem
      have hm_minC : ∀ y ∈ List.orderedInsert scoreDesc e.safetyScore B, m ≤ y := by
        intro y hy
        exact hm_min y (hAeC.symm.mem_iff.mp hy)
      have hCK : (List.orderedInsert scoreDesc e.safetyScore B).length = topK + 1 := by
        omega
      have herase := sorted_desc_erase_min _ hC_sort m hm_memC hm_minC topK hCK
      calc (pushEntry A e).map ScoredEntry.safetyScore
          = ((A ++ [e]).eraseIdx (worstIdx (A ++ [e]))).map ScoredEntry.safetyScore := by
            rw [hpush]
        _ ~ ((A ++ [e]).map ScoredEntry.safetyScore).erase m := hm_perm
        _ ~ (List.orderedInsert scoreDesc e.safetyScore B).erase m := hAeC.erase m
        _ ~ (List.orderedInsert scoreDesc e.safetyScore B).take topK := herase
    · have hpush : pushEntry A e = A ++ [e] := by
        unfold pushEntry
        rw [if_neg hover]
      have htake : (List.orderedInsert scoreDesc e.safetyScore B).take topK =
          List.orderedInsert scoreDesc e.safetyScore B := by
        refine List.take_of_length_le ?_
        omega
      rw [hpush]
      show _ ~ (List.orderedInsert scoreDesc e.safetyScore B).take topK
      rw [htake]
      exact hAeC
  · exact List.Pairwise.sublist (List.take_sublist _ _) hC_sort
  · simp only [specStep, List.length_take]
    omega

theorem foldl_pushEntry_spec (es : List ScoredEntry) :
    ∀ (A : List ScoredEntry) (B : List ℚ),
      A.map ScoredEntry.safetyScore ~ B → B.Sorted scoreDesc → B.length ≤ topK →
      ((es.foldl pushEntry A).map ScoredEntry.safetyScore ~
        (es.map ScoredEntry.safetyScore).foldl specStep B) ∧
      ((es.map ScoredEntry.safetyScore).foldl specStep B).Sorted scoreDesc ∧
      ((es.map ScoredEntry.safetyScore).foldl specStep B).length ≤ topK := by
  induction es with
  | nil =>
    intro A B h1 h2 h3
    exact ⟨h1, h2, h3⟩
  | cons e es ih =>
    intro A B h1 h2 h3
    obtain ⟨p1, p2, p3⟩ := pushEntry_spec A B e h1 h2 h3
    simpa using ih (pushEntry A e) (specStep B e.safetyScore) p1 p2 p3

/-- Claim C2: the incremental top-K retention loop (append each scored
candidate, then on overflow remove the entry found by the linear
lowest-score scan) retains exactly the 40 best-scoring candidates: its
final sorted contents equal, as a multiset of scores, the result of scoring
every candidate, sorting descending by `safetyScore` and taking the first
40. -/
theorem claim2_topk_retention_refines_sort (requirements : Requirements)
    (candidates : List Weather) :
    (((sortEntriesDesc (retainAll requirements candidates)).map
        ScoredEntry.safetyScore : Multiset ℚ)) =
      ((((candidates.map (mkEntry requirements)).insertionSort entryDesc).take topK).map
        ScoredEntry.safetyScore : Multiset ℚ) := by
  rw [Multiset.coe_eq_coe]
  have h1 : (sortEntriesDesc (retainAll requirements candidates)).map
      ScoredEntry.safetyScore ~
      (retainAll requirements candidates).map ScoredEntry.safetyScore :=
    (List.perm_insertionSort entryDesc _).map _
  have h2 := (foldl_pushEntry_spec (candidates.map (mkEntry requirements)) [] []
    (by simp) List.sorted_nil (by simp)).1
  have h3 : ((candidates.map (mkEntry requirements)).map
      ScoredEntry.safetyScore).foldl specStep [] =
      (((candidates.map (mkEntry requirements)).map
        ScoredEntry.safetyScore).insertionSort scoreDesc).take topK :=
    foldl_specStep_eq _
  have h4 : (((candidates.map (mkEntry requirements)).insertionSort entryDesc).take
      topK).map ScoredEntry.safetyScore =
      (((candidates.map (mkEntry requirements)).map
        ScoredEntry.safetyScore).insertionSort scoreDesc).take topK := by
    rw [List.map_take]
    rw [List.map_insertionSort entryDesc scoreDesc ScoredEntry.safetyScore _
      (fun a _ b _ => Iff.rfl)]
  rw [h4]
  calc (sortEntriesDesc (retainAll requirements candidates)).map ScoredEntry.safetyScore
      ~ (retainAll requirements candidates).map ScoredEntry.safetyScore := h1
    _ ~ (((candidates.map (mkEntry requirements)).map
        ScoredEntry.safetyScore).insertionSort scoreDesc).take topK := by
        rw [← h3]
        exact h2

theorem pushEntry_length_le (A : List ScoredEntry) (e : ScoredEntry) (h : A.length ≤ topK) :
    (pushEntry A e).length ≤ topK := by
  simp only [pushEntry]
  split
  · next hc =>
    obtain ⟨hlt, _⟩ := worstIdx_spec (A ++ [e]) (by simp)
    rw [List.length_eraseIdx, if_pos hlt]
    simp at hc ⊢
    omega
  · next hc => omega

theorem pushEntry_mem (A : List ScoredEntry) (e : ScoredEntry) :
    ∀ x ∈ pushEntry A e, x ∈ A ++ [e] := by
  simp only [pushEntry]
  split
  · intro x hx
    exact (List.eraseIdx_sublist _ _).subset hx
  · intro x hx
    exact hx

theorem foldl_pushEntry_length (es : List ScoredEntry) :
    ∀ A : List ScoredEntry, A.length ≤ topK → (es.foldl pushEntry A).length ≤ topK := by
  induction es with
  | nil => intro A h; exact h
  | cons e es ih =>
    intro A h
    exact ih (pushEntry A e) (pushEntry_length_le A e h)

theorem foldl_pushEntry_mem (es : List ScoredEntry) :
    ∀ (A : List ScoredEntry) (x : ScoredEntry),
      x ∈ es.foldl pushEntry A → x ∈ A ∨ x ∈ es := by
  induction es with
  | nil => intro A x hx; exact Or.inl hx
  | cons e es ih =>
    intro A x hx
    rcases ih (pushEntry A e) x hx with hx2 | hx2
    · rcases List.mem_append.mp (pushEntry_mem A e x hx2) with h | h
      · exact Or.inl h
      · exact Or.inr (List.mem_cons.mpr (Or.inl (List.mem_singleton.mp h)))
    · exact Or.inr (List.mem_cons.mpr (Or.inr hx2))

theorem mkEntry_date (requirements : Requirements) (w : Weather) :
    (mkEntry requirements w).date = w.date := rfl

theorem altWeather_date (mappedDaily : List Weather) (d : BackendAlt) :
    (altWeather mappedDaily d).date = d.date := by
  unfold altWeather
  split
  · next w hw =>
    have := List.find?_some hw
    simpa using this
  · rfl

theorem sortEntriesDesc_sorted (l : List ScoredEntry) :
    (sortEntriesDesc l).Sorted entryDesc :=
  List.sorted_insertionSort entryDesc l

theorem sortEntriesDesc_length (l : List ScoredEntry) :
    (sortEntriesDesc l).length = l.length :=
  List.length_insertionSort entryDesc l

theorem sortEntriesDesc_mem {l : List ScoredEntry} {a : ScoredEntry} :
    a ∈ sortEntriesDesc l ↔ a ∈ l :=
  List.mem_insertionSort entryDesc

theorem merge_sorted (mappedDaily : List Weather) (requirements : Requirements)
    (backendAlt : List BackendAlt) (generated : List ScoredEntry)
    (hgen : generated.Sorted entryDesc) :
    (mergeBackendAlternatives mappedDaily requirements backendAlt generated).Sorted
      entryDesc := by
  unfold mergeBackendAlternatives
  split
  · exact hgen
  · exact sortEntriesDesc_sorted _

theorem merge_length (mappedDaily : List Weather) (requirements : Requirements)
    (backendAlt : List BackendAlt) (generated : List ScoredEntry) :
    (mergeBackendAlternatives mappedDaily requirements backendAlt generated).length ≤
      generated.length + backendAlt.length := by
  unfold mergeBackendAlternatives
  split
  · omega
  · rw [sortEntriesDesc_length, List.length_append]
    have hf := List.length_filter_le
      (fun a => !((generated.map ScoredEntry.date).contains a.date))
      (backendAlt.map fun d => mkEntry requirements (altWeather mappedDaily d))
    have hm : (backendAlt.map fun d =>
        mkEntry requirements (altWeather mappedDaily d)).length = backendAlt.length :=
      List.length_map _ _
    omega

theorem merge_mem (mappedDaily : List Weather) (requirements : Requirements)
    (backendAlt : List BackendAlt) (generated : List ScoredEntry) :
    ∀ a ∈ mergeBackendAlternatives mappedDaily requirements backendAlt generated,
      a ∈ generated ∨ a.date ∈ backendAlt.map BackendAlt.date := by
  unfold mergeBackendAlternatives
  split
  · intro a ha
    exact Or.inl ha
  · intro a ha
    rw [sortEntriesDesc_mem] at ha
    rcases List.mem_append.mp ha with h | h
    · exact Or.inl h
    · right
      have h2 := List.mem_of_mem_filter h
      obtain ⟨d, hd, rfl⟩ := List.mem_map.mp h2
      rw [mkEntry_date, altWeather_date]
      exact List.mem_map_of_mem _ hd

theorem chunkEntries_dates (candidates : List Weather) (requirements : Requirements)
    (i n : Nat) :
    ∀ a ∈ ((candidates.drop i).take n).map (mkEntry requirements),
      a.date ∈ candidates.map Weather.date := by
  intro a ha
  obtain ⟨w, hw, rfl⟩ := List.mem_map.mp ha
  rw [mkEntry_date]
  refine List.mem_map_of_mem _ ?_
  exact (List.drop_sublist i candidates).subset ((List.take_sublist n _).subset hw)

theorem runFrame_inv (candidates : List Weather) (requirements : Requirements)
    (mappedDaily : List Weather) (backendAlt : List BackendAlt)
    (chunkDuration nowTs : ℚ) (s : ScanState)
    (h : ScanInv candidates backendAlt s) :
    ScanInv candidates backendAlt
      (runFrame candidates requirements mappedDaily backendAlt chunkDuration nowTs s) := by
  obtain ⟨h1, h2, h3, h4, h5, h6⟩ := h
  simp only [runFrame]
  split
  · exact ⟨h1, h2, h3, h4, h5, h6⟩
  split
  · exact ⟨h1, h2, h3, h4, h5, h6⟩
  next hc2 =>
  have habort : s.aborted = false := by simpa using hc2
  have hs1 : ((((candidates.drop s.index).take
      (min (s.index + s.dynamicChunk) candidates.length - s.index)).map
        (mkEntry requirements)).foldl pushEntry s.scored).length ≤ topK :=
    foldl_pushEntry_length _ _ h1
  have hs2 : ∀ a ∈ (((candidates.drop s.index).take
      (min (s.index + s.dynamicChunk) candidates.length - s.index)).map
        (mkEntry requirements)).foldl pushEntry s.scored,
      a.date ∈ candidates.map Weather.date := by
    intro a ha
    rcases foldl_pushEntry_mem _ _ _ ha with hmem | hmem
    · exact h2 a hmem
    · exact chunkEntries_dates candidates requirements _ _ a hmem
  simp only [habort, or_true, and_true, if_true, ite_true, eq_self_iff_true]
  split
  · -- next frame scheduled after the partial flush
    exact ⟨hs1, hs2, sortEntriesDesc_sorted _,
      fun _ => le_of_eq_of_le (sortEntriesDesc_length _) hs1,
      le_trans (le_of_eq (sortEntriesDesc_length _)) (by omega),
      fun a ha => Or.inl (hs2 a (sortEntriesDesc_mem.mp ha))⟩
  · -- completion: final sort, merge with backend alternatives, loading off
    refine ⟨le_of_eq_of_le (sortEntriesDesc_length _) hs1,
      fun a ha => hs2 a (sortEntriesDesc_mem.mp ha),
      merge_sorted _ _ _ _ (sortEntriesDesc_sorted _),
      fun hload => absurd hload (by simp), ?_, ?_⟩
    · refine le_trans (merge_length _ _ _ _) ?_
      rw [sortEntriesDesc_length]
      omega
    · intro a ha
      rcases merge_mem _ _ _ _ a ha with hmem | hmem
      · exact Or.inl (hs2 a (sortEntriesDesc_mem.mp hmem))
      · exact Or.inr hmem

theorem scanStep_inv (candidates : List Weather) (requirements : Requirements)
    (mappedDaily : List Weather) (backendAlt : List BackendAlt)
    (s : ScanState) (ev : ScanEvent) (h : ScanInv candidates backendAlt s) :
    ScanInv candidates backendAlt
      (scanStep candidates requirements mappedDaily backendAlt s ev) := by
  cases ev with
  | frame d t => exact runFrame_inv candidates requirements mappedDaily backendAlt d t s h
  | timeout =>
    obtain ⟨h1, h2, h3, h4, h5, h6⟩ := h
    simp only [scanStep]
    split
    · exact ⟨h1, h2, h3, h4, h5, h6⟩
    · exact ⟨h1, h2, h3, h4, h5, h6⟩
  | unmount =>
    obtain ⟨h1, h2, h3, h4, h5, h6⟩ := h
    exact ⟨h1, h2, h3, h4, h5, h6⟩

theorem runScan_inv (candidates : List Weather) (requirements : Requirements)
    (mappedDaily : List Weather) (backendAlt : List BackendAlt) (t0 : ℚ)
    (events : List ScanEvent) :
    ScanInv candidates backendAlt
      (runScan candidates requirements mappedDaily backendAlt t0 events) := by
  have hinit : ScanInv candidates backendAlt (initState candidates t0) :=
    ⟨by simp [initState, topK], by simp [initState], by simp [initState],
      by simp [initState], by simp [initState], by simp [initState]⟩
  unfold runScan
  generalize initState candidates t0 = s0 at hinit
  induction events generalizing s0 with
  | nil => exact hinit
  | cons ev rest ih =>
    rw [List.foldl_cons]
    exact ih _ (scanStep_inv candidates requirements mappedDaily backendAlt s0 ev hinit)

/-- Counterexample to claim C1: with a pool of 40 candidates and one
backend alternative on a fresh date, the scanner's final publication (after
merging, with loading complete) holds 41 entries — the merge step does not
re-cap the list at 40. -/
theorem claim1_counterexample :
    (runScan
        (List.replicate 40 ⟨"d", 20, 0, 0, 50, 0, 0⟩)
        ⟨⟨0, 50⟩, ⟨10⟩, ⟨100⟩, ⟨none, 100⟩⟩ []
        [⟨"x", 20, 0, 0, none, none, none⟩] 0
        [.frame 1 0, .frame 1 0, .frame 1 0]).alternativeDates.length = 41 ∧
    (runScan
        (List.replicate 40 ⟨"d", 20, 0, 0, 50, 0, 0⟩)
        ⟨⟨0, 50⟩, ⟨10⟩, ⟨100⟩, ⟨none, 100⟩⟩ []
        [⟨"x", 20, 0, 0, none, none, none⟩] 0
        [.frame 1 0, .frame 1 0, .frame 1 0]).loading = false := by
  with_unfolding_all decide

/-- Claim C1 as amended: for every candidate pool, backend alternative list
and event sequence, every publication of the scanner is sorted descending by
`safetyScore` and every published entry originates from the pool or from the
backend alternatives; every publication made while the scan is still loading
(the intermediate partials) holds at most 40 entries, and the final merged
publication holds at most 40 entries plus one per backend alternative (the
merge is not re-capped at 40). -/
theorem claim1_publication_invariants (candidates : List Weather)
    (requirements : Requirements) (mappedDaily : List Weather)
    (backendAlt : List BackendAlt) (t0 : ℚ) (events : List ScanEvent) :
    ((runScan candidates requirements mappedDaily backendAlt t0
        events).alternativeDates).Sorted entryDesc ∧
    (runScan candidates requirements mappedDaily backendAlt t0
        events).alternativeDates.length ≤ topK + backendAlt.length ∧
    ((runScan candidates requirements mappedDaily backendAlt t0 events).loading = true →
      (runScan candidates requirements mappedDaily backendAlt t0
        events).alternativeDates.length ≤ topK) ∧
    (∀ a ∈ (runScan candidates requirements mappedDaily backendAlt t0
        events).alternativeDates,
      a.date ∈ candidates.map Weather.date ∨ a.date ∈ backendAlt.map BackendAlt.date) := by
  obtain ⟨_, _, h3, h4, h5, h6⟩ :=
    runScan_inv candidates requirements mappedDaily backendAlt t0 events
  exact ⟨h3, h5, h4, h6⟩

/-- Concrete instance for claim C1 as amended: after one frame over an
11-candidate pool the scan is still loading and the partial publication is
within the 40-entry cap. -/
theorem claim1_publication_invariants_witness :
    (runScan (List.replicate 11 ⟨"d", 20, 0, 0, 50, 0, 0⟩)
        ⟨⟨0, 50⟩, ⟨10⟩, ⟨100⟩, ⟨none, 100⟩⟩ [] [] 0
        [.frame 10 0]).alternativeDates.length ≤ topK :=
  (claim1_publication_invariants (List.replicate 11 ⟨"d", 20, 0, 0, 50, 0, 0⟩)
    ⟨⟨0, 50⟩, ⟨10⟩, ⟨100⟩, ⟨none, 100⟩⟩ [] [] 0 [.frame 10 0]).2.2.1
    (by with_unfolding_all decide)

theorem scanStep_aborted (candidates : List Weather) (requirements : Requirements)
    (mappedDaily : List Weather) (backendAlt : List BackendAlt) (s : ScanState)
    (h1 : s.aborted = true) (h2 : s.timeoutActive = false) (ev : ScanEvent) :
    scanStep candidates requirements mappedDaily backendAlt s ev = s ∨
    scanStep candidates requirements mappedDaily backendAlt s ev =
      { s with framePending := false } := by
  cases ev with
  | frame d t =>
    simp only [scanStep, runFrame]
    by_cases hp : s.framePending = false
    · left
      rw [if_pos hp]
    · right
      rw [if_neg hp]
      simp only [h1, if_true, ite_true, eq_self_iff_true]
  | timeout =>
    left
    simp only [scanStep, h2]
    simp
  | unmount =>
    left
    simp only [scanStep]
    cases s
    simp_all

theorem collapse_framePending (s : ScanState) :
    ({ { s with framePending := false } with framePending := false } : ScanState) =
      { s with framePending := false } := rfl

theorem foldl_scanStep_aborted (candidates : List Weather) (requirements : Requirements)
    (mappedDaily : List Weather) (backendAlt : List BackendAlt)
    (events : List ScanEvent) :
    ∀ s : ScanState, s.aborted = true → s.timeoutActive = false →
      events.foldl (scanStep candidates requirements mappedDaily backendAlt) s = s ∨
      events.foldl (scanStep candidates requirements mappedDaily backendAlt) s =
        { s with framePending := false } := by
  induction events with
  | nil => intro s _ _; exact Or.inl rfl
  | cons ev rest ih =>
    intro s h1 h2
    rw [List.foldl_cons]
    rcases scanStep_aborted candidates requirements mappedDaily backendAlt s h1 h2 ev
      with heq | heq
    · rw [heq]
      exact ih s h1 h2
    · rw [heq]
      rcases ih { s with framePending := false } h1 h2 with heq2 | heq2
      · exact Or.inr heq2
      · right
        rw [heq2]

/-- Claim C5: once the abort flag is set — by the timeout or by the effect
cleanup, both of which also clear the timeout — no subsequently scheduled
chunk scores a candidate, publishes results, updates progress or loading,
or schedules another animation frame: the scanner's state is frozen apart
from the consumption of an already-scheduled frame callback, so the last
result published before the abort remains final. -/
theorem claim5_abort_stops_updates (candidates : List Weather)
    (requirements : Requirements) (mappedDaily : List Weather)
    (backendAlt : List BackendAlt) (s : ScanState)
    (h1 : s.aborted = true) (h2 : s.timeoutActive = false)
    (events : List ScanEvent) :
    (events.foldl (scanStep candidates requirements mappedDaily backendAlt)
        s).alternativeDates = s.alternativeDates ∧
    (events.foldl (scanStep candidates requirements mappedDaily backendAlt)
        s).scored = s.scored ∧
    (events.foldl (scanStep candidates requirements mappedDaily backendAlt)
        s).index = s.index ∧
    (events.foldl (scanStep candidates requirements mappedDaily backendAlt)
        s).progressProcessed = s.progressProcessed ∧
    (events.foldl (scanStep candidates requirements mappedDaily backendAlt)
        s).progressTotal = s.progressTotal ∧
    (events.foldl (scanStep candidates requirements mappedDaily backendAlt)
        s).loading = s.loading ∧
    (events.foldl (scanStep candidates requirements mappedDaily backendAlt)
        s).timedOut = s.timedOut ∧
    ((events.foldl (scanStep candidates requirements mappedDaily backendAlt)
        s).framePending = true → s.framePending = true) := by
  rcases foldl_scanStep_aborted candidates requirements mappedDaily backendAlt events s h1 h2
    with heq | heq <;> rw [heq]
  · exact ⟨rfl, rfl, rfl, rfl, rfl, rfl, rfl, fun h => h⟩
  · exact ⟨rfl, rfl, rfl, rfl, rfl, rfl, rfl, fun h => by simp at h⟩

/-- Concrete instance for claim C5: an aborted mid-scan state is unchanged
by further frame, timeout and unmount events. -/
theorem claim5_abort_stops_updates_witness :
    (([ScanEvent.frame 1 50, ScanEvent.timeout, ScanEvent.unmount].foldl
        (scanStep [] ⟨⟨0, 50⟩, ⟨10⟩, ⟨100⟩, ⟨none, 100⟩⟩ [] [])
        ⟨3, 10, 0, [], [], 3, 5, true, true, true, true, false⟩).alternativeDates =
      (⟨3, 10, 0, [], [], 3, 5, true, true, true, true, false⟩ :
        ScanState).alternativeDates) ∧
    (([ScanEvent.frame 1 50, ScanEvent.timeout, ScanEvent.unmount].foldl
        (scanStep [] ⟨⟨0, 50⟩, ⟨10⟩, ⟨100⟩, ⟨none, 100⟩⟩ [] [])
        ⟨3, 10, 0, [], [], 3, 5, true, true, true, true, false⟩).loading =
      (⟨3, 10, 0, [], [], 3, 5, true, true, true, true, false⟩ : ScanState).loading) := by
  constructor
  · exact (claim5_abort_stops_updates [] ⟨⟨0, 50⟩, ⟨10⟩, ⟨100⟩, ⟨none, 100⟩⟩ [] []
      ⟨3, 10, 0, [], [], 3, 5, true, true, true, true, false⟩ rfl rfl
      [ScanEvent.frame 1 50, ScanEvent.timeout, ScanEvent.unmount]).1
  · exact (claim5_abort_stops_updates [] ⟨⟨0, 50⟩, ⟨10⟩, ⟨100⟩, ⟨none, 100⟩⟩ [] []
      ⟨3, 10, 0, [], [], 3, 5, true, true, true, true, false⟩ rfl rfl
      [ScanEvent.frame 1 50, ScanEvent.timeout, ScanEvent.unmount]).2.2.2.2.2.1

end ParadesOhGuardian
